import Mathlib

/-!
Verification of the `llm_dq_agent` data-quality pipeline.

Shallow embedding of the Python sources:
  * `src/data_quality/checks.py` — the three data-quality checks;
  * `src/reporting/report_generator.py` — assessment aggregation;
  * `src/reporting/remediation_advisor.py` — recommendation rules;
  * `src/reporting/report_templates.py` — markdown / HTML rendering;
  * `src/retrieval/schema_indexer.py` — relevance ranking of search hits.

Python machine floats are modelled as exact rationals (`ℚ`); the claims
settled here are order and arithmetic properties that are robust under this
idealisation.  Python strings are Lean `String`s; a Python `dict` built with
string keys is an association list in insertion order.
-/

namespace DQAgent

/-- Models Python `str.lower()` (ASCII case mapping suffices for this code). -/
def pyLower (s : String) : String := ⟨s.data.map Char.toLower⟩

/-- Models Python `str.upper()` (ASCII case mapping suffices for this code). -/
def pyUpper (s : String) : String := ⟨s.data.map Char.toUpper⟩

/-- Models Python `str.title()`: the first letter of every run of alphabetic
characters is upper-cased, the rest lower-cased. -/
def pyTitleAux : Bool → List Char → List Char
  | _, [] => []
  | prevAlpha, c :: rest =>
    (if c.isAlpha then (if prevAlpha then c.toLower else c.toUpper) else c)
      :: pyTitleAux c.isAlpha rest

def pyTitle (s : String) : String := ⟨pyTitleAux false s.data⟩

/-- Splits a character list at whitespace; helper for `pySplitWs`. -/
def splitWsAux : List Char → List Char → List String
  | [], acc => [⟨acc.reverse⟩]
  | c :: rest, acc =>
      if c.isWhitespace then ⟨acc.reverse⟩ :: splitWsAux rest []
      else splitWsAux rest (c :: acc)

/-- Models Python `str.split()` with no argument: split on whitespace runs,
dropping empty pieces. -/
def pySplitWs (s : String) : List String :=
  (splitWsAux s.data []).filter (fun w => w ≠ "")

/-- Models Python `str.endswith(suffix)`. -/
def endsWithB (s suffix : String) : Bool :=
  suffix.data.reverse.isPrefixOf s.data.reverse

/-- Models Python `str.replace(pat, rep)` for single-character patterns
(the sources only replace `'_'` by `' '`). -/
def pyReplaceChar (s : String) (pat rep : Char) : String :=
  ⟨s.data.map (fun c => if c = pat then rep else c)⟩

/-- Boolean test that `p` is a contiguous infix of `l`. -/
def infixOfB (p : List Char) : List Char → Bool
  | [] => decide (p = [])
  | c :: rest => p.isPrefixOf (c :: rest) || infixOfB p rest

/-- Boolean substring test, models Python `needle in haystack` on strings. -/
def strContainsB (haystack needle : String) : Bool :=
  infixOfB needle.data haystack.data

/-- `Contains s p` : `p` occurs as a contiguous substring of `s`. -/
def Contains (s p : String) : Prop := ∃ pre post : String, s = pre ++ p ++ post

/-- Groups a reversed digit list into threes, inserting `','`.  Helper for
Python's `{n:,}` thousands formatting. -/
def commaChunk : List Char → List Char
  | c1 :: c2 :: c3 :: c4 :: rest => c1 :: c2 :: c3 :: ',' :: commaChunk (c4 :: rest)
  | l => l

/-- Models Python `f"{n:,}"` for a natural number. -/
def fmtCommaNat (n : Nat) : String := ⟨(commaChunk (toString n).data.reverse).reverse⟩

/-- Models Python `f"{n:,}"` for an integer. -/
def fmtComma (n : Int) : String :=
  if n < 0 then "-" ++ fmtCommaNat n.natAbs else fmtCommaNat n.natAbs

/-- Models Python `f"{q:.prec f}"` fixed-point formatting of a float.  Exact
half-way ties (where Python's binary-float round-half-even could differ from
`round`) do not arise in any verified claim. -/
def fmtFixed (prec : Nat) (q : ℚ) : String :=
  let m : ℤ := round (q * ((10 : ℚ) ^ prec))
  let sign := if m < 0 then "-" else ""
  let a := m.natAbs
  let ip := a / 10 ^ prec
  let fp := a % 10 ^ prec
  let fs := toString fp
  let fs := String.mk (List.replicate (prec - fs.length) '0') ++ fs
  if prec = 0 then sign ++ toString ip else sign ++ toString ip ++ "." ++ fs

/-- Models Python `f"{q:,.2f}"`: two decimals with a thousands separator. -/
def fmtCommaFixed2 (q : ℚ) : String :=
  let m : ℤ := round (q * 100)
  let sign := if m < 0 then "-" else ""
  let a := m.natAbs
  let fs := toString (a % 100)
  sign ++ fmtCommaNat (a / 100) ++ "." ++ String.mk (List.replicate (2 - fs.length) '0') ++ fs

/-- Models Python `f"{q:.0%}"`. -/
def fmtPercent0 (q : ℚ) : String := fmtFixed 0 (q * 100) ++ "%"

/-- Models Python `round(q, 2)` on the rationals standing in for floats. -/
def roundTo2 (q : ℚ) : ℚ := ((round (q * 100) : ℤ) : ℚ) / 100

/-- Models `datetime.fromisoformat(ts).strftime('%Y-%m-%d %H:%M:%S')` for a
canonical ISO string `YYYY-MM-DDTHH:MM:SS[.ffffff]`: keep the date, replace
the `T` with a space, drop the fractional seconds. -/
def isoToDisplay (iso : String) : String :=
  ⟨iso.data.take 10⟩ ++ " " ++ ⟨(iso.data.drop 11).take 8⟩

/-! ## Data model: loaded tabular data (`pandas` DataFrame)

The connectors load a table into a DataFrame.  The values occurring in this
repository's data are integers and strings; missing data is a null cell. -/

inductive Cell where
  | int (n : Int)
  | str (s : String)
  | null
deriving DecidableEq, Repr

structure DataFrame where
  cols : List String
  rows : List (List Cell)
deriving DecidableEq, Repr

/-- Column `j` of the frame, as the list of its cells. -/
def DataFrame.col (df : DataFrame) (j : Nat) : List Cell :=
  df.rows.map (fun r => r.getD j Cell.null)

/-- The dummy DataFrame `{'A': [1, 2, 2, 2, 3], 'B': ['a', 'b', 'b', 'b', 'c']}`
that `load_data_by_id` falls back to when a connector fails
(`src/data_quality/checks.py`, lines 46-51). -/
def dummyFallbackData : DataFrame :=
  { cols := ["A", "B"],
    rows := [[.int 1, .str "a"], [.int 2, .str "b"], [.int 2, .str "b"],
             [.int 2, .str "b"], [.int 3, .str "c"]] }

/-! ## Check results

`CheckResult` models the result dictionaries built in
`src/data_quality/checks.py`.  Each optional field is present (`some`) exactly
when the corresponding dictionary key was inserted; `Option.getD` models
`dict.get(key, default)`.  The key `duplicate_examples` read (with default
`[]`) by the renderers is produced by no check, so it is not modelled and the
renderer blocks guarded on it are vacuous. -/

inductive StatVal where
  | int (n : Int)
  | float (q : ℚ)
  | str (s : String)
deriving DecidableEq, Repr

structure NullColumnInfo where
  column_name : String
  null_count : Int
  null_percentage : ℚ
deriving DecidableEq, Repr

structure CheckResult where
  dataset_id : String := ""
  total_rows : Option Int := none
  duplicate_qty : Option Int := none
  total_columns : Option Int := none
  columns_with_nulls : Option Int := none
  null_analysis : Option (List NullColumnInfo) := none
  descriptive_stats : Option (List (String × List (String × Option StatVal))) := none
  error : Option String := none
  status : String := ""
deriving DecidableEq, Repr

/-- `check_dataset_duplicates` (`checks.py`, lines 53-81), applied to the
DataFrame that `load_data_by_id` returned.  `df.drop_duplicates()` keeps the
first occurrence of each row; only its length is used.  Note the function has
no `try`/`except` of its own, and its body cannot raise once the data is
loaded (loading itself falls back to dummy data on any error). -/
def check_dataset_duplicates (dataset_id : String) (df : DataFrame) : CheckResult :=
  let total_rows : Int := df.rows.length
  let duplicate_numb : Int := total_rows - df.rows.eraseDups.length
  { dataset_id := dataset_id,
    total_rows := some total_rows,
    duplicate_qty := some duplicate_numb,
    status := if duplicate_numb = 0 then "success" else "failure" }

/-- The null-placeholder standardisation of `check_dataset_null_values`
(`checks.py`, lines 132-137): `'<NA>'`, `''`, `'NULL'`, `'null'` become NaN. -/
def standardizeNulls (c : Cell) : Cell :=
  match c with
  | .str s => if s = "<NA>" ∨ s = "" ∨ s = "NULL" ∨ s = "null" then .null else c
  | _ => c

/-- `check_dataset_null_values` (`checks.py`, lines 83-175), applied to the
loaded DataFrame.  The `try` wraps the whole body; after loading (which never
raises) the body itself cannot raise, so the `except` branch — which would
return `status='failure'` with an `error` message — is unreachable here. -/
def check_dataset_null_values (dataset_id : String) (df : DataFrame) : CheckResult :=
  let total_rows : Int := df.rows.length
  let null_analysis :=
    (List.range df.cols.length).filterMap (fun j =>
      let cells := (df.col j).map standardizeNulls
      let defined_values_count : Int := (cells.filter (fun c => c ≠ Cell.null)).length
      let null_count := total_rows - defined_values_count
      if null_count > 0 then
        some { column_name := df.cols.getD j "",
               null_count := null_count,
               null_percentage := roundTo2 (((null_count : ℚ) / (total_rows : ℚ)) * 100) }
      else (none : Option NullColumnInfo))
  let null_analysis :=
    List.insertionSort
      (fun a b => b.null_percentage ≤ a.null_percentage) null_analysis
  { dataset_id := dataset_id,
    total_rows := some total_rows,
    total_columns := some (df.cols.length : Int),
    columns_with_nulls := some (null_analysis.length : Int),
    null_analysis := some null_analysis,
    status := "success" }

/-- A column receives numeric `describe` statistics when it holds at least one
integer and no string (and is not forced to categorical treatment). -/
def numericColumn (cells : List Cell) : Bool :=
  (cells.any (fun c => match c with | .int _ => true | _ => false)) &&
  (cells.all (fun c => match c with | .str _ => false | _ => true))

/-- Count of non-null cells (pandas `count`). -/
def cellCount (cells : List Cell) : Int := (cells.filter (fun c => c ≠ Cell.null)).length

/-- The numeric values of a column. -/
def numValues (cells : List Cell) : List ℚ :=
  cells.filterMap (fun c => match c with | .int n => some ((n : ℚ)) | _ => none)

/-- Most frequent non-null value of a categorical column (pandas `top`,
first-seen value on ties) together with its frequency. -/
def topFreq (cells : List Cell) : Option (Cell × Int) :=
  let nonNull := cells.filter (fun c => c ≠ Cell.null)
  match nonNull.eraseDups.argmax (fun v => (nonNull.count v : ℤ)) with
  | none => none
  | some v => some (v, (nonNull.count v : ℤ))

/-- Stats of one column under `df.describe(include='all')`
(`checks.py`, lines 215-232), already converted to the Python-native values of
the `stats_dict` loop: `None` for NaN entries, `int`/`float`/`str` otherwise.
`std` and the three quartiles involve square roots / interpolation that the
rational model does not represent exactly; no verified claim inspects them, so
they are recorded as absent (`None`). -/
def describeColumn (name : String) (cells : List Cell) : List (String × Option StatVal) :=
  let categorical := endsWithB (pyLower name) "_id" ∨ ¬ numericColumn cells
  if categorical then
    let tf := topFreq cells
    [("count", some (.int (cellCount cells))),
     ("unique", some (.int ((cells.filter (fun c => c ≠ Cell.null)).eraseDups.length : ℤ))),
     ("top", tf.map (fun p => match p.1 with
        | .int n => StatVal.int n
        | .str s => StatVal.str s
        | .null => StatVal.str "")),
     ("freq", tf.map (fun p => StatVal.int p.2)),
     ("mean", none), ("std", none), ("min", none),
     ("25%", none), ("50%", none), ("75%", none), ("max", none)]
  else
    let vals := numValues cells
    let n : ℚ := vals.length
    [("count", some (.int (cellCount cells))),
     ("unique", none), ("top", none), ("freq", none),
     ("mean", if vals.length = 0 then none else some (.float (vals.sum / n))),
     ("std", none),
     ("min", (vals.min?).map StatVal.float),
     ("25%", none), ("50%", none), ("75%", none),
     ("max", (vals.max?).map StatVal.float)]

/-- `df.describe(include='all')` raises `ValueError` on a DataFrame without
columns; otherwise it succeeds.  This is the one exception the body of
`check_dataset_descriptive_stats` can raise. -/
def describeAll (df : DataFrame) :
    Except String (List (String × List (String × Option StatVal))) :=
  if df.cols.isEmpty then
    .error "Cannot describe a DataFrame without columns"
  else
    .ok ((List.range df.cols.length).map (fun j =>
      (df.cols.getD j "", describeColumn (df.cols.getD j "") (df.col j))))

/-- `check_dataset_descriptive_stats` (`checks.py`, lines 177-245), applied to
the loaded DataFrame.  The `try` catches the body's exception and returns
`status='failure'` with the message — not `status='error'`. -/
def check_dataset_descriptive_stats (dataset_id : String) (df : DataFrame) : CheckResult :=
  match describeAll df with
  | .ok stats =>
      { dataset_id := dataset_id,
        descriptive_stats := some stats,
        status := "success" }
  | .error e =>
      { dataset_id := dataset_id,
        error := some e,
        status := "failure" }

/-! ## Remediation advisor (`src/reporting/remediation_advisor.py`) -/

structure Recommendation where
  title : String
  description : String
  priority : String
deriving DecidableEq, Repr

/-- `priority_order.get(priority, 4)` used as the sort key
(`remediation_advisor.py`, lines 119-120). -/
def priorityRankOf (p : String) : Nat :=
  if p = "High" then 1 else if p = "Medium" then 2 else if p = "Low" then 3 else 4

/-- `RemediationAdvisor._is_check_passed` (lines 166-181). -/
def isCheckPassed (check_result : CheckResult) : Bool :=
  if check_result.status ≠ "success" then false
  else if check_result.duplicate_qty.isSome then check_result.duplicate_qty.getD 0 == 0
  else if check_result.columns_with_nulls.isSome then check_result.columns_with_nulls.getD 0 == 0
  else if check_result.descriptive_stats.isSome then true
  else true

/-- Numeric view of a stored stat value.  `describe` stores only numbers or
`None` under `mean`, `std`, `unique` and `count`, so the advisor's raw
arithmetic (`std/abs(mean)`) and `int(float(x))` conversions succeed exactly
on these. -/
def statAsNum (v : Option StatVal) : Option ℚ :=
  match v with
  | some (.int n) => some ((n : ℚ))
  | some (.float q) => some q
  | _ => none

/-- `RemediationAdvisor._analyze_statistical_outliers` (lines 124-164).
`int(float(x))` truncates; the counts involved are nonnegative, so floor
agrees. -/
def analyzeStatisticalOutliers
    (stats : List (String × List (String × Option StatVal))) : List Recommendation :=
  stats.flatMap (fun cs =>
    let column_name := cs.1
    let col_stats := cs.2
    let mean_val := statAsNum ((col_stats.lookup "mean").getD none)
    let std_val := statAsNum ((col_stats.lookup "std").getD none)
    let cvRecs :=
      match mean_val, std_val with
      | some m, some s =>
          if m ≠ 0 then
            let cv := s / |m|
            if cv > 2 then
              [{ title := "Investigate High Variability in " ++ column_name,
                 description := "Column `" ++ column_name ++ "` has high variability (CV=" ++
                   fmtFixed 2 cv ++ "). Review for outliers, data entry errors, or consider data transformation/normalization techniques.",
                 priority := "Low" }]
            else []
          else []
      | _, _ => []
    let unique_val := statAsNum ((col_stats.lookup "unique").getD none)
    let count_val := statAsNum ((col_stats.lookup "count").getD none)
    let cardRecs :=
      match unique_val, count_val with
      | some u, some c =>
          if c > 0 then
            let unique_count : Int := ⌊u⌋
            let cnt : Int := ⌊c⌋
            let uniquenessShare : ℚ := (unique_count : ℚ) / (cnt : ℚ)
            if uniquenessShare > 95/100 ∧ unique_count > 100 then
              [{ title := "High Cardinality in " ++ column_name,
                 description := "Column `" ++ column_name ++ "` has very high cardinality (" ++
                   fmtComma unique_count ++ " unique values). Consider data normalization, categorization, or indexing strategies for performance.",
                 priority := "Low" }]
            else []
          else []
      | _, _ => []
    cvRecs ++ cardRecs)

/-- `RemediationAdvisor.generate_recommendations` (lines 13-122).  The rule
blocks append in source order; the final `sort` is Python's stable sort on the
priority rank. -/
def generate_recommendations (check_results : List (String × CheckResult)) :
    List Recommendation :=
  let dupRecs :=
    match check_results.lookup "duplicates" with
    | none => []
    | some duplicate_result =>
        if duplicate_result.status = "success" then
          let duplicate_qty := duplicate_result.duplicate_qty.getD 0
          if duplicate_qty > 0 then
            [{ title := "Remove Duplicate Records",
               description := "Found " ++ fmtComma duplicate_qty ++
                 " duplicate records. Consider implementing deduplication logic using business keys or primary key constraints. Use SQL DISTINCT, ROW_NUMBER() window functions, or unique constraints.",
               priority := if duplicate_qty > 1000 then "High" else "Medium" }]
          else []
        else []
  let nullRecs :=
    match check_results.lookup "null_values" with
    | none => []
    | some null_result =>
        if null_result.status = "success" then
          let columns_with_nulls := null_result.columns_with_nulls.getD 0
          let null_analysis := null_result.null_analysis.getD []
          if columns_with_nulls > 0 then
            let high_null_columns := null_analysis.filter (fun c => c.null_percentage > 20)
            let medium_null_columns :=
              null_analysis.filter (fun c => 5 < c.null_percentage ∧ c.null_percentage ≤ 20)
            (if high_null_columns ≠ [] then
              let col_names := String.intercalate ", "
                ((high_null_columns.take 3).map (fun c => "`" ++ c.column_name ++ "`"))
              [{ title := "Address High Null Value Columns",
                 description := "Columns " ++ col_names ++
                   " have >20% null values. Consider: 1) Data source validation, 2) Default value strategies, 3) Imputation techniques, or 4) Column removal if not critical.",
                 priority := "High" }]
             else []) ++
            (if medium_null_columns ≠ [] then
              let col_names := String.intercalate ", "
                ((medium_null_columns.take 3).map (fun c => "`" ++ c.column_name ++ "`"))
              [{ title := "Implement Null Handling Strategy",
                 description := "Columns " ++ col_names ++
                   " have 5-20% null values. Consider implementing NOT NULL constraints, data validation rules, or imputation strategies based on business logic.",
                 priority := "Medium" }]
             else []) ++
            (if null_analysis.length > 5 then
              [{ title := "Comprehensive Data Governance",
                 description := toString null_analysis.length ++
                   " columns have null values. Implement data governance policies including mandatory field validation, data entry training, and upstream data quality monitoring.",
                 priority := "Medium" }]
             else [])
          else []
        else []
  let statsRecs :=
    match check_results.lookup "descriptive_stats" with
    | none => []
    | some stats_result =>
        if stats_result.status = "success" then
          let stats := stats_result.descriptive_stats.getD []
          analyzeStatisticalOutliers stats ++
          (if stats.length > 10 then
            [{ title := "Data Documentation and Profiling",
               description := "Dataset has " ++ toString stats.length ++
                 " columns. Consider creating data dictionaries, establishing column-level monitoring, and implementing regular statistical profiling to track data drift over time.",
               priority := "Low" }]
           else [])
        else []
  let error_checks := (check_results.filter (fun e => e.2.status = "error")).map (fun e => e.1)
  let errRecs :=
    if error_checks ≠ [] then
      [{ title := "Fix Check Execution Errors",
         description := "Data quality checks " ++ String.intercalate ", " error_checks ++
           " failed to execute. Review database connectivity, permissions, and data availability. Ensure stable monitoring infrastructure.",
         priority := "High" }]
    else []
  let total_checks := check_results.length
  let passed_checks :=
    check_results.countP (fun e => (e.2.status == "success") && isCheckPassed e.2)
  let rateRecs :=
    if total_checks > 0 then
      let pass_rate : ℚ := (passed_checks : ℚ) / (total_checks : ℚ)
      if pass_rate < 1/2 then
        [{ title := "Establish Data Quality Framework",
           description := "Only " ++ fmtPercent0 pass_rate ++
             " of checks passed. Consider implementing: 1) Data validation at ingestion, 2) Regular quality monitoring, 3) Data stewardship roles, 4) Quality metrics dashboards.",
           priority := "High" }]
      else if pass_rate < 4/5 then
        [{ title := "Enhance Data Quality Processes",
           description := fmtPercent0 pass_rate ++
             " pass rate indicates room for improvement. Implement automated quality gates, exception handling, and proactive monitoring for sustained quality.",
           priority := "Medium" }]
      else []
    else []
  List.insertionSort
    (fun a b => priorityRankOf a.priority ≤ priorityRankOf b.priority)
    (dupRecs ++ nullRecs ++ statsRecs ++ errRecs ++ rateRecs)

/-! ## Assessment aggregation (`src/reporting/report_generator.py`) -/

structure AssessmentMetadata where
  dataset_id : String
  connector_type : String
  timestamp : String
  checks_requested : List String
  total_checks : Nat
deriving DecidableEq, Repr

structure AssessmentSummary where
  passed_checks : Nat
  failed_checks : Nat
  error_checks : Nat
deriving DecidableEq, Repr

structure Assessment where
  metadata : AssessmentMetadata
  check_results : List (String × CheckResult)
  summary : AssessmentSummary
  recommendations : List Recommendation
deriving DecidableEq, Repr

inductive CheckBucket where
  | passed
  | failed
  | errored
deriving DecidableEq, Repr

/-- The per-check classification of the summary loop in
`create_assessment_from_results` (`report_generator.py`, lines 92-105). -/
def classifyCheckResult (check_name : String) (result : CheckResult) : CheckBucket :=
  if result.status = "success" then
    if check_name = "duplicates" ∧ result.duplicate_qty.getD 0 = 0 then .passed
    else if check_name = "null_values" ∧ result.columns_with_nulls.getD 0 = 0 then .passed
    else if check_name = "descriptive_stats" then .passed
    else .failed
  else if result.status = "failure" then .failed
  else .errored

/-- The summary loop counts each entry into the bucket chosen by
`classifyCheckResult`. -/
def summarizeResults (check_results : List (String × CheckResult)) : AssessmentSummary :=
  { passed_checks := check_results.countP (fun e => classifyCheckResult e.1 e.2 == .passed),
    failed_checks := check_results.countP (fun e => classifyCheckResult e.1 e.2 == .failed),
    error_checks := check_results.countP (fun e => classifyCheckResult e.1 e.2 == .errored) }

/-- `DataQualityReportGenerator.create_assessment_from_results`
(`report_generator.py`, lines 59-112).  `now_iso` is the value of
`datetime.now().isoformat()` at the call. -/
def create_assessment_from_results (check_results : List (String × CheckResult))
    (dataset_id : String) (connector_type : String) (now_iso : String) : Assessment :=
  { metadata := { dataset_id := dataset_id, connector_type := connector_type,
                  timestamp := now_iso,
                  checks_requested := check_results.map (fun e => e.1),
                  total_checks := check_results.length },
    check_results := check_results,
    summary := summarizeResults check_results,
    recommendations := generate_recommendations check_results }

/-- The keys of `available_checks` (`report_generator.py`, lines 22-26). -/
def availableCheckNames : List String := ["duplicates", "null_values", "descriptive_stats"]

/-- The check-execution loop of `run_full_assessment` (lines 48-54):
`execCheck name` stands for `available_checks[name](dataset_id,
connector_type=connector_type)`, whose value depends on externally loaded
data. -/
def checksToResults (execCheck : String → CheckResult) (checks : List String) :
    List (String × CheckResult) :=
  (checks.filter (fun n => availableCheckNames.contains n)).map (fun n => (n, execCheck n))

/-- `DataQualityReportGenerator.run_full_assessment` (lines 28-57); the
`checks=None` default is the caller passing `availableCheckNames`. -/
def run_full_assessment (execCheck : String → CheckResult)
    (dataset_id connector_type : String) (checks : List String) (now_iso : String) :
    Assessment :=
  create_assessment_from_results (checksToResults execCheck checks)
    dataset_id connector_type now_iso

/-! ## Table search ranking (`src/retrieval/schema_indexer.py`)

The vector store and the embedding model are external collaborators; a raw
hit records what `collection.query` returned for one candidate (document
text, metadata, distance).  `database_mappings` is the dictionary built by
`_get_database_mappings`, an association list in insertion order. -/

structure RawSearchHit where
  document : String
  table_name : String
  full_name : String
  connector_type : String
  distance : ℚ
deriving DecidableEq, Repr

structure RankedTable where
  rank : Nat
  table_name : String
  full_name : String
  metadata_doc : String
  relevance_score : ℚ
  connector_type : String
  original_relevance : ℚ
  boosted : Bool
  table_boost : ℚ
  detected_db : Option String
  db_mappings_used : Option (List (String × String))
deriving DecidableEq, Repr

/-- The database-preference detection of `search_tables`
(`schema_indexer.py`, lines 347-389). -/
def detectPreferredConnector (query_lower : String)
    (database_mappings : List (String × String)) : Option String :=
  if strContainsB query_lower "postgres" || strContainsB query_lower "postgresql" then
    some "postgres"
  else if strContainsB query_lower "snowflake" then
    some "snowflake"
  else
    let query_words := pySplitWs (pyReplaceChar query_lower '_' ' ')
    match query_words.findSome? (fun w => database_mappings.lookup w) with
    | some c => some c
    | none =>
      match database_mappings.find? (fun p => strContainsB query_lower p.1) with
      | some p => some p.2
      | none =>
        let staging_keywords := ["stage", "staging", "dev", "development", "test"]
        let production_keywords := ["prod", "production", "live"]
        if staging_keywords.any (fun k => strContainsB query_lower k) then
          staging_keywords.findSome? (fun k => database_mappings.lookup k)
        else if production_keywords.any (fun k => strContainsB query_lower k) then
          production_keywords.findSome? (fun k => database_mappings.lookup k)
        else none

/-- The per-hit scoring of `search_tables` (`schema_indexer.py`, lines
411-449): `base_relevance = 1 - distance` (no clamp), connector-affinity boost
`min(base + 0.3, 1.0)` when the preference matches, then `+0.2` per query word
of length ≥ 3 occurring in the lower-cased table name, capped by
`min(·, 1.0)`. -/
def scoreHit (preferred_connector : Option String) (query_lower : String)
    (database_mappings : List (String × String)) (i : Nat) (h : RawSearchHit) :
    RankedTable :=
  let base_relevance : ℚ := 1 - h.distance
  let boosted0 :=
    if preferred_connector = some h.connector_type then min (base_relevance + 3/10) 1
    else base_relevance
  let tname := pyLower h.table_name
  let query_words := pySplitWs query_lower
  let table_name_boost : ℚ :=
    ((query_words.filter (fun w => w.length ≥ 3 && strContainsB tname w)).length : ℚ) * (2/10)
  let boosted_relevance := min (boosted0 + table_name_boost) 1
  { rank := i + 1,
    table_name := h.table_name,
    full_name := h.full_name,
    metadata_doc := h.document,
    relevance_score := boosted_relevance,
    connector_type := h.connector_type,
    original_relevance := base_relevance,
    boosted := preferred_connector == some h.connector_type,
    table_boost := table_name_boost,
    detected_db := preferred_connector,
    db_mappings_used := if preferred_connector.isSome then some database_mappings else none }

/-- The `enumerate` loop building `relevant_tables` (lines 411-449), with the
running index made explicit. -/
def scoreHitsFrom (preferred_connector : Option String) (query_lower : String)
    (database_mappings : List (String × String)) (i : Nat) :
    List RawSearchHit → List RankedTable
  | [] => []
  | h :: rest =>
      scoreHit preferred_connector query_lower database_mappings i h ::
      scoreHitsFrom preferred_connector query_lower database_mappings (i + 1) rest

/-- The final `enumerate` loop reassigning dense 1-based ranks (lines
460-462). -/
def reassignRanks (i : Nat) : List RankedTable → List RankedTable
  | [] => []
  | t :: rest => { t with rank := i + 1 } :: reassignRanks (i + 1) rest

/-- `SchemaIndexer.search_tables` (`schema_indexer.py`, lines 331-464) from
the raw vector-store hits onward: score and boost every hit, stable-sort by
boosted relevance descending, drop hits below `min_relevance`, truncate to
`top_k`, and reassign dense 1-based ranks. -/
def search_tables (query : String) (database_mappings : List (String × String))
    (rawHits : List RawSearchHit) (top_k : Nat) (min_relevance : ℚ) :
    List RankedTable :=
  let query_lower := pyLower query
  let preferred_connector := detectPreferredConnector query_lower database_mappings
  let relevant_tables :=
    scoreHitsFrom preferred_connector query_lower database_mappings 0 rawHits
  let relevant_tables :=
    List.insertionSort (fun a b => b.relevance_score ≤ a.relevance_score) relevant_tables
  let filtered_tables := relevant_tables.filter (fun t => min_relevance ≤ t.relevance_score)
  let final_results := filtered_tables.take top_k
  reassignRanks 0 final_results

/-- Modelled from the spec: the per-hit scoring that `search_tables` would
perform if, as the spec states (§4.2, §8), the raw similarity `1 - distance`
were clamped to `[0, 1]` before the connector-affinity and lexical boosts.
The actual `search_tables` applies no such clamp; this variant exists only to
be compared against it. -/
def scoreHitClampedSpec (preferred_connector : Option String) (query_lower : String)
    (database_mappings : List (String × String)) (i : Nat) (h : RawSearchHit) :
    RankedTable :=
  let base_relevance : ℚ := max 0 (min (1 - h.distance) 1)
  let boosted0 :=
    if preferred_connector = some h.connector_type then min (base_relevance + 3/10) 1
    else base_relevance
  let tname := pyLower h.table_name
  let query_words := pySplitWs query_lower
  let table_name_boost : ℚ :=
    ((query_words.filter (fun w => w.length ≥ 3 && strContainsB tname w)).length : ℚ) * (2/10)
  let boosted_relevance := min (boosted0 + table_name_boost) 1
  { rank := i + 1,
    table_name := h.table_name,
    full_name := h.full_name,
    metadata_doc := h.document,
    relevance_score := boosted_relevance,
    connector_type := h.connector_type,
    original_relevance := base_relevance,
    boosted := preferred_connector == some h.connector_type,
    table_boost := table_name_boost,
    detected_db := preferred_connector,
    db_mappings_used := if preferred_connector.isSome then some database_mappings else none }

/-- Modelled from the spec: `search_tables` with the clamped raw similarity of
`scoreHitClampedSpec`, all later stages unchanged. -/
def scoreHitsClampedFrom (preferred_connector : Option String) (query_lower : String)
    (database_mappings : List (String × String)) (i : Nat) :
    List RawSearchHit → List RankedTable
  | [] => []
  | h :: rest =>
      scoreHitClampedSpec preferred_connector query_lower database_mappings i h ::
      scoreHitsClampedFrom preferred_connector query_lower database_mappings (i + 1) rest

def search_tables_clamped_spec (query : String)
    (database_mappings : List (String × String)) (rawHits : List RawSearchHit)
    (top_k : Nat) (min_relevance : ℚ) : List RankedTable :=
  let query_lower := pyLower query
  let preferred_connector := detectPreferredConnector query_lower database_mappings
  let relevant_tables :=
    scoreHitsClampedFrom preferred_connector query_lower database_mappings 0 rawHits
  let relevant_tables :=
    List.insertionSort (fun a b => b.relevance_score ≤ a.relevance_score) relevant_tables
  let filtered_tables := relevant_tables.filter (fun t => min_relevance ≤ t.relevance_score)
  let final_results := filtered_tables.take top_k
  reassignRanks 0 final_results

/-! ## Report rendering (`src/reporting/report_templates.py`)

The render methods run at some wall-clock instant; `gen_time` is the value of
`datetime.now().strftime('%Y-%m-%d %H:%M:%S')` observed by that call (the
assessment's own stored timestamp is a separate field).  Sequential `+=`
string building is the left-to-right concatenation `mdJoin`. -/

def mdJoin : List String → String
  | [] => ""
  | s :: l => s ++ mdJoin l

/-- The `fmt_val` helper defined identically inside both renderers
(`report_templates.py`, lines 105-113 and 348-356). -/
def fmt_val (v : Option StatVal) : String :=
  match v with
  | none => "-"
  | some (.int n) => fmtComma n
  | some (.float q) => fmtCommaFixed2 q
  | some (.str s) => ⟨s.data.take 15⟩

/-- Markdown header block (`report_templates.py`, lines 22-39). -/
def mdHeader (m : AssessmentMetadata) (s : AssessmentSummary) : String :=
  "# Data Quality Assessment Report\n\n## Dataset Information\n- **Dataset**: `" ++
  m.dataset_id ++ "`\n- **Connector**: " ++ pyUpper m.connector_type ++
  "\n- **Assessment Date**: " ++ isoToDisplay m.timestamp ++
  "\n- **Total Checks**: " ++ toString m.total_checks ++
  "\n\n## Executive Summary\n- ✅ **Passed**: " ++ toString s.passed_checks ++
  " checks\n- ❌ **Failed**: " ++ toString s.failed_checks ++
  " checks\n- 🚫 **Errors**: " ++ toString s.error_checks ++
  " checks\n\n---\n\n## Detailed Check Results\n\n"

/-- Markdown duplicates block (lines 47-64).  The `duplicate_examples` key is
produced by no check, so the sample-records block guarded on it emits
nothing. -/
def mdDuplicatesBody (result : CheckResult) : String :=
  let duplicate_qty := result.duplicate_qty.getD 0
  let total_rows := result.total_rows.getD 0
  let duplicate_percentage : ℚ :=
    if total_rows > 0 then ((duplicate_qty : ℚ) / (total_rows : ℚ)) * 100 else 0
  let status_text := if duplicate_qty = 0 then "PASS" else "FAIL"
  mdJoin
    ["- **Status**: " ++ status_text ++ "\n",
     "- **Total Rows**: " ++ fmtComma total_rows ++ "\n",
     "- **Duplicate Records**: " ++ fmtComma duplicate_qty ++ " (",
     fmtFixed 2 duplicate_percentage ++ "% of data)\n",
     if duplicate_qty > 0 then
       "- **Impact**: Data redundancy detected - " ++ fmtComma duplicate_qty ++
         " rows are duplicated\n"
     else
       "- **Quality**: Excellent - No duplicate records found\n"]

/-- Markdown null-profile block (lines 66-88). -/
def mdNullValuesBody (result : CheckResult) : String :=
  let total_rows := result.total_rows.getD 0
  let columns_with_nulls := result.columns_with_nulls.getD 0
  let total_columns := result.total_columns.getD 0
  let status_text := if columns_with_nulls = 0 then "PASS" else "FAIL"
  "- **Status**: " ++ status_text ++ "\n" ++
  "- **Dataset Size**: " ++ fmtComma total_rows ++ " rows × " ++
    toString total_columns ++ " columns\n" ++
  "- **Columns with Missing Data**: " ++ toString columns_with_nulls ++ " out of " ++
    toString total_columns ++ " columns\n" ++
  (if columns_with_nulls > 0 then
    let null_coverage : ℚ :=
      if total_columns > 0 then ((columns_with_nulls : ℚ) / (total_columns : ℚ)) * 100 else 0
    "- **Missing Data Coverage**: " ++ fmtFixed 1 null_coverage ++
      "% of columns affected\n" ++
    (let null_analysis := result.null_analysis.getD []
     if null_analysis ≠ [] then
       "\n**Detailed Null Analysis:**\n" ++
       mdJoin (null_analysis.map (fun c =>
         "- `" ++ c.column_name ++ "`: " ++ fmtComma c.null_count ++ " nulls (" ++
         fmtFixed 1 c.null_percentage ++ "%)\n"))
     else "")
   else
    "- **Quality**: Excellent - No missing values detected in any column\n")

/-- Markdown descriptive-stats block (lines 90-127).  The source writes `\\n`
inside ordinary f-strings here, so the output contains a literal backslash
followed by `n`, not a newline; this is reproduced faithfully.  The
`columns_analyzed` key is produced by no check, so the fallback
`len(descriptive_stats)` is always taken. -/
def mdStatsBody (result : CheckResult) : String :=
  let stats := result.descriptive_stats.getD []
  let columns_count := stats.length
  "- **Status**: PASS (Statistics Generated)\\n" ++
  "- **Columns Analyzed**: " ++ toString columns_count ++ " columns\\n" ++
  (if stats.length > 0 then
    "\\n**📊 Complete Statistical Summary:**\\n\\n" ++
    "| Column | Count | Mean | Std | Min | 25% | 50% | 75% | Max | Unique | Top | Freq |\\n" ++
    "|--------|-------|------|-----|-----|-----|-----|-----|-----|--------|-----|------|\\n" ++
    mdJoin (stats.map (fun cs =>
      "| `" ++ cs.1 ++ "` | " ++ fmt_val ((cs.2.lookup "count").getD none) ++ " | " ++
      fmt_val ((cs.2.lookup "mean").getD none) ++ " | " ++
      fmt_val ((cs.2.lookup "std").getD none) ++ " | " ++
      fmt_val ((cs.2.lookup "min").getD none) ++ " | " ++
      fmt_val ((cs.2.lookup "25%").getD none) ++ " | " ++
      fmt_val ((cs.2.lookup "50%").getD none) ++ " | " ++
      fmt_val ((cs.2.lookup "75%").getD none) ++ " | " ++
      fmt_val ((cs.2.lookup "max").getD none) ++ " | " ++
      fmt_val ((cs.2.lookup "unique").getD none) ++ " | " ++
      fmt_val ((cs.2.lookup "top").getD none) ++ " | " ++
      fmt_val ((cs.2.lookup "freq").getD none) ++ " |\\n"))
   else "")

/-- One markdown check section (lines 42-133): emoji/name header, then the
per-check body for `status='success'`, or the ERROR block otherwise, then a
blank line. -/
def mdCheckSection (check_name : String) (result : CheckResult) : String :=
  let status_emoji := if result.status = "success" then "✅" else "❌"
  "### " ++ status_emoji ++ " " ++ pyTitle (pyReplaceChar check_name '_' ' ') ++ "\n\n" ++
  (if result.status = "success" then
    (if check_name = "duplicates" then mdDuplicatesBody result
     else if check_name = "null_values" then mdNullValuesBody result
     else if check_name = "descriptive_stats" then mdStatsBody result
     else "")
   else
    "- **Status**: ERROR\n" ++
    "- **Error**: " ++ result.error.getD "Unknown error" ++ "\n") ++
  "\n"

/-- Markdown recommendations block (lines 136-141). -/
def mdRecommendations (recommendations : List Recommendation) : String :=
  if recommendations ≠ [] then
    "---\n\n## Recommendations\n\n" ++
    mdJoin (recommendations.enum.map (fun p =>
      toString (p.1 + 1) ++ ". **" ++ p.2.title ++ "**\n" ++
      "   - " ++ p.2.description ++ "\n" ++
      "   - *Priority*: " ++ p.2.priority ++ "\n\n"))
  else ""

/-- Markdown footer (lines 144-152); `gen_time` is the `datetime.now()`
reading of this render call. -/
def mdFooter (gen_time : String) : String :=
  "---\n\n## Report Generation\n- **Generated by**: LLM Data Quality Agent\n- **Generation Time**: " ++
  gen_time ++
  "\n- **Report Format**: Markdown\n\n*This report was automatically generated. Please review recommendations and take appropriate action.*\n"

/-- `ReportTemplates.render_markdown_template` (lines 14-154). -/
def render_markdown_template (a : Assessment) (gen_time : String) : String :=
  mdHeader a.metadata a.summary ++
  mdJoin (a.check_results.map (fun e => mdCheckSection e.1 e.2)) ++
  mdRecommendations a.recommendations ++
  mdFooter gen_time

/-- The `css_styles` literal of `render_html_template` (lines 164-188);
braces and single quotes appear via character escapes. -/
def cssStyles : String :=
  "\n        <style>\n            body \x7b font-family: Arial, sans-serif; max-width: 1200px; margin: 0 auto; padding: 20px; \x7d\n            .header \x7b background: linear-gradient(135deg, #667eea 0%, #764ba2 100%); color: white; padding: 30px; border-radius: 10px; margin-bottom: 30px; \x7d\n            .summary-grid \x7b display: grid; grid-template-columns: repeat(auto-fit, minmax(200px, 1fr)); gap: 20px; margin: 20px 0; \x7d\n            .summary-card \x7b background: #f8f9fa; padding: 20px; border-radius: 8px; text-align: center; border-left: 4px solid #007bff; \x7d\n            .passed \x7b border-left-color: #28a745; \x7d\n            .failed \x7b border-left-color: #dc3545; \x7d\n            .error \x7b border-left-color: #ffc107; \x7d\n            .check-result \x7b background: white; border: 1px solid #e9ecef; border-radius: 8px; padding: 20px; margin: 15px 0; box-shadow: 0 2px 4px rgba(0,0,0,0.1); \x7d\n            .check-title \x7b font-size: 1.2em; font-weight: bold; margin-bottom: 10px; \x7d\n            .status-pass \x7b color: #28a745; \x7d\n            .status-fail \x7b color: #dc3545; \x7d\n            .status-error \x7b color: #ffc107; \x7d\n            .recommendations \x7b background: #e8f4f8; padding: 20px; border-radius: 8px; margin: 20px 0; \x7d\n            .recommendation-item \x7b margin: 15px 0; padding: 15px; background: white; border-radius: 5px; \x7d\n            .priority-high \x7b border-left: 4px solid #dc3545; \x7d\n            .priority-medium \x7b border-left: 4px solid #ffc107; \x7d\n            .priority-low \x7b border-left: 4px solid #28a745; \x7d\n            .metadata-table \x7b width: 100%; border-collapse: collapse; margin: 20px 0; \x7d\n            .metadata-table th, .metadata-table td \x7b padding: 10px; text-align: left; border-bottom: 1px solid #ddd; \x7d\n            .metadata-table th \x7b background: #f8f9fa; \x7d\n            code \x7b background: #f8f9fa; padding: 2px 4px; border-radius: 3px; font-family: \x27Courier New\x27, monospace; \x7d\n        </style>\n        "

/-- HTML header, summary cards and dataset-information table (lines
191-233). -/
def htmlHeader (m : AssessmentMetadata) (s : AssessmentSummary) : String :=
  "<!DOCTYPE html>\n<html lang=\"en\">\n<head>\n    <meta charset=\"UTF-8\">\n    <meta name=\"viewport\" content=\"width=device-width, initial-scale=1.0\">\n    <title>Data Quality Assessment Report</title>\n    " ++
  cssStyles ++
  "\n</head>\n<body>\n    <div class=\"header\">\n        <h1>📊 Data Quality Assessment Report</h1>\n        <p>Comprehensive analysis of dataset: <code style=\"color: black; background: white; font-weight: bold;\">" ++
  m.dataset_id ++
  "</code></p>\n    </div>\n\n    <div class=\"summary-grid\">\n        <div class=\"summary-card passed\">\n            <h3>✅ Passed</h3>\n            <div style=\"font-size: 2em; font-weight: bold;\">" ++
  toString s.passed_checks ++
  "</div>\n            <p>Checks passed</p>\n        </div>\n        <div class=\"summary-card failed\">\n            <h3>❌ Failed</h3>\n            <div style=\"font-size: 2em; font-weight: bold;\">" ++
  toString s.failed_checks ++
  "</div>\n            <p>Checks failed</p>\n        </div>\n        <div class=\"summary-card error\">\n            <h3>🚫 Errors</h3>\n            <div style=\"font-size: 2em; font-weight: bold;\">" ++
  toString s.error_checks ++
  "</div>\n            <p>Checks errored</p>\n        </div>\n    </div>\n\n    <h2>📋 Dataset Information</h2>\n    <table class=\"metadata-table\">\n        <tr><th>Property</th><th>Value</th></tr>\n        <tr><td>Dataset</td><td><code>" ++
  m.dataset_id ++
  "</code></td></tr>\n        <tr><td>Connector</td><td>" ++
  pyUpper m.connector_type ++
  "</td></tr>\n        <tr><td>Assessment Date</td><td>" ++
  isoToDisplay m.timestamp ++
  "</td></tr>\n        <tr><td>Total Checks</td><td>" ++
  toString m.total_checks ++
  "</td></tr>\n    </table>\n\n    <h2>Detailed Check Results</h2>\n"

/-- HTML duplicates block (lines 266-286); reached for `status='success'` and
also for `status='failure'` (line 265).  `duplicate_examples` is produced by
no check, so the sample block is vacuous. -/
def htmlDuplicatesBody (result : CheckResult) : String :=
  let duplicate_qty := result.duplicate_qty.getD 0
  let total_rows := result.total_rows.getD 0
  let duplicate_percentage : ℚ :=
    if total_rows > 0 then ((duplicate_qty : ℚ) / (total_rows : ℚ)) * 100 else 0
  let status_text := if duplicate_qty = 0 then "PASS" else "FAIL"
  let status_class := if duplicate_qty = 0 then "status-pass" else "status-fail"
  mdJoin
    ["\n        <p><strong>Status:</strong> <span class=\"" ++ status_class ++ "\">" ++
       status_text ++ "</span></p>\n        ",
     "<p><strong>Total Rows:</strong> " ++ fmtComma total_rows ++ "</p>",
     "\n        ",
     "<p><strong>Duplicate Records:</strong> " ++ fmtComma duplicate_qty ++ " (",
     fmtFixed 2 duplicate_percentage ++ "% of data)</p>\n",
     if duplicate_qty > 0 then
       "<p><strong>Impact:</strong> Data redundancy detected - " ++ fmtComma duplicate_qty ++
       " rows are duplicated</p>"
     else
       "<p><strong>Quality:</strong> <span style=\x27color: green;\x27>Excellent - No duplicate records found</span></p>"]

/-- HTML null-profile block (lines 288-314). -/
def htmlNullValuesBody (result : CheckResult) : String :=
  let total_rows := result.total_rows.getD 0
  let columns_with_nulls := result.columns_with_nulls.getD 0
  let total_columns := result.total_columns.getD 0
  let status_text := if columns_with_nulls = 0 then "PASS" else "FAIL"
  let status_class := if columns_with_nulls = 0 then "status-pass" else "status-fail"
  "\n        <p><strong>Status:</strong> <span class=\"" ++ status_class ++ "\">" ++
  status_text ++
  "</span></p>\n        <p><strong>Dataset Size:</strong> " ++ fmtComma total_rows ++
  " rows × " ++ toString total_columns ++
  " columns</p>\n        <p><strong>Columns with Missing Data:</strong> " ++
  toString columns_with_nulls ++ " out of " ++ toString total_columns ++ " columns</p>\n" ++
  (if columns_with_nulls > 0 then
    let null_coverage : ℚ :=
      if total_columns > 0 then ((columns_with_nulls : ℚ) / (total_columns : ℚ)) * 100 else 0
    "<p><strong>Missing Data Coverage:</strong> " ++ fmtFixed 1 null_coverage ++
    "% of columns affected</p>" ++
    (let null_analysis := result.null_analysis.getD []
     if null_analysis ≠ [] then
       "<p><strong>Detailed Null Analysis:</strong></p><ul>" ++
       mdJoin (null_analysis.map (fun c =>
         "<li><code>" ++ c.column_name ++ "</code>: " ++ fmtComma c.null_count ++
         " nulls (" ++ fmtFixed 1 c.null_percentage ++ "%)</li>")) ++
       "</ul>"
     else "")
   else
    "<p><strong>Quality:</strong> <span style=\x27color: green;\x27>Excellent - No missing values detected in any column</span></p>")

/-- HTML descriptive-stats block (lines 316-376). -/
def htmlStatsBody (result : CheckResult) : String :=
  let stats := result.descriptive_stats.getD []
  let columns_count := stats.length
  "\n        <p><strong>Status:</strong> <span class=\"status-pass\">PASS (Statistics Generated)</span></p>\n        <p><strong>Columns Analyzed:</strong> " ++
  toString columns_count ++ " columns</p>\n" ++
  (if stats.length > 0 then
    "\n        <p><strong>📊 Complete Statistical Summary:</strong></p>\n        <div style=\x27overflow-x: auto; margin: 10px 0;\x27>\n        <table style=\x27width: 100%; border-collapse: collapse; font-size: 0.9em;\x27>\n        <tr style=\x27background: #667eea; color: white; font-weight: bold;\x27>\n            <th style=\x27border: 1px solid #ddd; padding: 8px;\x27>Column</th>\n            <th style=\x27border: 1px solid #ddd; padding: 8px;\x27>Count</th>\n            <th style=\x27border: 1px solid #ddd; padding: 8px;\x27>Mean</th>\n            <th style=\x27border: 1px solid #ddd; padding: 8px;\x27>Std</th>\n            <th style=\x27border: 1px solid #ddd; padding: 8px;\x27>Min</th>\n            <th style=\x27border: 1px solid #ddd; padding: 8px;\x27>25%</th>\n            <th style=\x27border: 1px solid #ddd; padding: 8px;\x27>50%</th>\n            <th style=\x27border: 1px solid #ddd; padding: 8px;\x27>75%</th>\n            <th style=\x27border: 1px solid #ddd; padding: 8px;\x27>Max</th>\n            <th style=\x27border: 1px solid #ddd; padding: 8px;\x27>Unique</th>\n            <th style=\x27border: 1px solid #ddd; padding: 8px;\x27>Top</th>\n            <th style=\x27border: 1px solid #ddd; padding: 8px;\x27>Freq</th>\n        </tr>" ++
    mdJoin (stats.map (fun cs =>
      "\n        <tr>\n            <td style=\x27border: 1px solid #ddd; padding: 6px; font-weight: bold;\x27><code>" ++
      cs.1 ++
      "</code></td>\n            <td style=\x27border: 1px solid #ddd; padding: 6px; text-align: right;\x27>" ++
      fmt_val ((cs.2.lookup "count").getD none) ++
      "</td>\n            <td style=\x27border: 1px solid #ddd; padding: 6px; text-align: right;\x27>" ++
      fmt_val ((cs.2.lookup "mean").getD none) ++
      "</td>\n            <td style=\x27border: 1px solid #ddd; padding: 6px; text-align: right;\x27>" ++
      fmt_val ((cs.2.lookup "std").getD none) ++
      "</td>\n            <td style=\x27border: 1px solid #ddd; padding: 6px; text-align: right;\x27>" ++
      fmt_val ((cs.2.lookup "min").getD none) ++
      "</td>\n            <td style=\x27border: 1px solid #ddd; padding: 6px; text-align: right;\x27>" ++
      fmt_val ((cs.2.lookup "25%").getD none) ++
      "</td>\n            <td style=\x27border: 1px solid #ddd; padding: 6px; text-align: right;\x27>" ++
      fmt_val ((cs.2.lookup "50%").getD none) ++
      "</td>\n            <td style=\x27border: 1px solid #ddd; padding: 6px; text-align: right;\x27>" ++
      fmt_val ((cs.2.lookup "75%").getD none) ++
      "</td>\n            <td style=\x27border: 1px solid #ddd; padding: 6px; text-align: right;\x27>" ++
      fmt_val ((cs.2.lookup "max").getD none) ++
      "</td>\n            <td style=\x27border: 1px solid #ddd; padding: 6px; text-align: right;\x27>" ++
      fmt_val ((cs.2.lookup "unique").getD none) ++
      "</td>\n            <td style=\x27border: 1px solid #ddd; padding: 6px;\x27>" ++
      fmt_val ((cs.2.lookup "top").getD none) ++
      "</td>\n            <td style=\x27border: 1px solid #ddd; padding: 6px; text-align: right;\x27>" ++
      fmt_val ((cs.2.lookup "freq").getD none) ++
      "</td>\n        </tr>")) ++
    "\n        </table>\n        </div>"
   else "")

/-- HTML error block (lines 378-382). -/
def htmlErrorBody (result : CheckResult) : String :=
  "\n        <p><strong>Status:</strong> <span class=\"status-error\">ERROR</span></p>\n        <p><strong>Error:</strong> " ++
  result.error.getD "Unknown error" ++ "</p>\n"

/-- One HTML check section (lines 236-384).  Note line 265: the detailed body
is rendered for `status='success'`, and also for `status='failure'` when the
check is the duplicates check; the null-profile body additionally requires
`status='success'` (line 288). -/
def htmlCheckSection (check_name : String) (result : CheckResult) : String :=
  let sc :=
    if result.status = "success" then
      if check_name = "duplicates" ∧ result.duplicate_qty.getD 0 = 0 then
        ("status-pass", "✅")
      else if check_name = "null_values" ∧ result.columns_with_nulls.getD 0 = 0 then
        ("status-pass", "✅")
      else if check_name = "descriptive_stats" then ("status-pass", "✅")
      else ("status-fail", "❌")
    else if result.status = "failure" then ("status-fail", "❌")
    else ("status-error", "❌")
  "\n    <div class=\"check-result\">\n        <div class=\"check-title " ++ sc.1 ++
  "\">\n            " ++ sc.2 ++ " " ++ pyTitle (pyReplaceChar check_name '_' ' ') ++
  "\n        </div>\n" ++
  (if result.status = "success" ∨ (result.status = "failure" ∧ check_name = "duplicates") then
    (if check_name = "duplicates" then htmlDuplicatesBody result
     else if check_name = "null_values" ∧ result.status = "success" then
       htmlNullValuesBody result
     else if check_name = "descriptive_stats" then htmlStatsBody result
     else "")
   else htmlErrorBody result) ++
  "    </div>\n"

/-- HTML recommendations block (lines 387-401). -/
def htmlRecommendations (recommendations : List Recommendation) : String :=
  if recommendations ≠ [] then
    "\n    <div class=\"recommendations\">\n        <h2>Recommendations</h2>\n" ++
    mdJoin (recommendations.enum.map (fun p =>
      "\n        <div class=\"recommendation-item priority-" ++ pyLower p.2.priority ++
      "\">\n            <h4>" ++ toString (p.1 + 1) ++ ". " ++ p.2.title ++
      "</h4>\n            <p>" ++ p.2.description ++
      "</p>\n            <p><em>Priority: " ++ p.2.priority ++
      "</em></p>\n        </div>\n")) ++
    "    </div>\n"
  else ""

/-- HTML footer (lines 404-412); `gen_time` is the `datetime.now()` reading of
this render call. -/
def htmlFooter (gen_time : String) : String :=
  "\n    <div style=\"margin-top: 40px; padding: 20px; background: #f8f9fa; border-radius: 8px; text-align: center;\">\n        <p><strong>Report Generated by:</strong> LLM Data Quality Agent</p>\n        <p><strong>Generation Time:</strong> " ++
  gen_time ++
  "</p>\n        <p><em>This report was automatically generated. Please review recommendations and take appropriate action.</em></p>\n    </div>\n</body>\n</html>\n"

/-- `ReportTemplates.render_html_template` (lines 156-414). -/
def render_html_template (a : Assessment) (gen_time : String) : String :=
  htmlHeader a.metadata a.summary ++
  mdJoin (a.check_results.map (fun e => htmlCheckSection e.1 e.2)) ++
  htmlRecommendations a.recommendations ++
  htmlFooter gen_time

/-! ## JSON report (`generate_json_report`, `report_generator.py` line 123-125)

`json.dumps(assessment_results, indent=2, default=str)` serialises the
assessment dictionary with two-space indentation, keys in insertion order.
The strings occurring in this pipeline are ASCII, so `ensure_ascii` escaping
reduces to quote/backslash escaping. -/

inductive JValue where
  | jnull
  | jint (n : Int)
  | jfloat (q : ℚ)
  | jstr (s : String)
  | jarr (l : List JValue)
  | jobj (l : List (String × JValue))
deriving Repr

def jsonEscape (s : String) : String :=
  ⟨s.data.flatMap (fun c =>
    if c = '\"' then ['\\', '\"'] else if c = '\\' then ['\\', '\\'] else [c])⟩

/-- `repr` of the floats this pipeline stores (values rounded to at most two
decimals): integral floats print with `.0`, otherwise trailing zeros are
dropped. -/
def jfloatRepr (q : ℚ) : String :=
  if q.den = 1 then toString q.num ++ ".0"
  else if (q * 10).den = 1 then fmtFixed 1 q
  else fmtFixed 2 q

def indentStr (n : Nat) : String := ⟨List.replicate n ' '⟩

mutual

def ppJson (ind : Nat) : JValue → String
  | .jnull => "null"
  | .jint n => toString n
  | .jfloat q => jfloatRepr q
  | .jstr s => "\"" ++ jsonEscape s ++ "\""
  | .jarr [] => "[]"
  | .jarr (v :: l) =>
      "[\n" ++ ppJsonArrItems (ind + 2) v l ++ "\n" ++ indentStr ind ++ "]"
  | .jobj [] => "\x7b\x7d"
  | .jobj ((k, v) :: l) =>
      "\x7b\n" ++ ppJsonObjItems (ind + 2) k v l ++ "\n" ++ indentStr ind ++ "\x7d"
termination_by v => sizeOf v

def ppJsonArrItems (ind : Nat) (v : JValue) : List JValue → String
  | [] => indentStr ind ++ ppJson ind v
  | w :: rest => indentStr ind ++ ppJson ind v ++ ",\n" ++ ppJsonArrItems ind w rest
termination_by l => sizeOf v + sizeOf l

def ppJsonObjItems (ind : Nat) (k : String) (v : JValue) :
    List (String × JValue) → String
  | [] => indentStr ind ++ "\"" ++ jsonEscape k ++ "\": " ++ ppJson ind v
  | (k2, v2) :: rest =>
      indentStr ind ++ "\"" ++ jsonEscape k ++ "\": " ++ ppJson ind v ++ ",\n" ++
      ppJsonObjItems ind k2 v2 rest
termination_by l => sizeOf v + sizeOf l

end

/-- A check-result dictionary as JSON.  Python dicts serialise in insertion
order; every check inserts `dataset_id` first and `status` last, with the
optional keys between them in the relative order used here. -/
def checkResultToJson (r : CheckResult) : JValue :=
  .jobj (
    [("dataset_id", .jstr r.dataset_id)] ++
    (match r.total_rows with | some n => [("total_rows", JValue.jint n)] | none => []) ++
    (match r.duplicate_qty with | some n => [("duplicate_qty", JValue.jint n)] | none => []) ++
    (match r.total_columns with | some n => [("total_columns", JValue.jint n)] | none => []) ++
    (match r.columns_with_nulls with
     | some n => [("columns_with_nulls", JValue.jint n)] | none => []) ++
    (match r.null_analysis with
     | some l =>
        [("null_analysis", JValue.jarr (l.map (fun c => JValue.jobj
          [("column_name", .jstr c.column_name),
           ("null_count", .jint c.null_count),
           ("null_percentage", .jfloat c.null_percentage)])))]
     | none => []) ++
    (match r.descriptive_stats with
     | some st =>
        [("descriptive_stats", JValue.jobj (st.map (fun cs =>
          (cs.1, JValue.jobj (cs.2.map (fun p =>
            (p.1, match p.2 with
                  | none => JValue.jnull
                  | some (.int n) => JValue.jint n
                  | some (.float q) => JValue.jfloat q
                  | some (.str s) => JValue.jstr s)))))))]
     | none => []) ++
    (match r.error with | some e => [("error", JValue.jstr e)] | none => []) ++
    [("status", .jstr r.status)])

def assessmentToJson (a : Assessment) : JValue :=
  .jobj
    [("metadata", .jobj
       [("dataset_id", .jstr a.metadata.dataset_id),
        ("connector_type", .jstr a.metadata.connector_type),
        ("timestamp", .jstr a.metadata.timestamp),
        ("checks_requested", .jarr (a.metadata.checks_requested.map JValue.jstr)),
        ("total_checks", .jint a.metadata.total_checks)]),
     ("check_results", .jobj (a.check_results.map (fun e => (e.1, checkResultToJson e.2)))),
     ("summary", .jobj
       [("passed_checks", .jint a.summary.passed_checks),
        ("failed_checks", .jint a.summary.failed_checks),
        ("error_checks", .jint a.summary.error_checks)]),
     ("recommendations", .jarr (a.recommendations.map (fun r => JValue.jobj
       [("title", .jstr r.title),
        ("description", .jstr r.description),
        ("priority", .jstr r.priority)])))]

/-- `DataQualityReportGenerator.generate_json_report` (lines 123-125).  The
call happens at clock reading `gen_time`, which `json.dumps` never reads:
the output is a function of the assessment alone. -/
def generate_json_report (a : Assessment) (_gen_time : String) : String :=
  ppJson 0 (assessmentToJson a)

/-! ## Helper lemmas -/

theorem prefixOf_correct (p l : List Char) : p.isPrefixOf l = true ↔ p <+: l :=
  List.isPrefixOf_iff_prefix

theorem infixOfB_correct (p l : List Char) : infixOfB p l = true ↔ p <:+: l := by
  induction l with
  | nil => simp [infixOfB, List.infix_nil]
  | cons c rest ih =>
      rw [infixOfB, List.infix_cons_iff, Bool.or_eq_true, ih, prefixOf_correct]

theorem contains_iff (s p : String) : Contains s p ↔ strContainsB s p = true := by
  rw [strContainsB, infixOfB_correct]
  constructor
  · rintro ⟨a, b, rfl⟩
    exact ⟨a.data, b.data, by simp [String.data_append]⟩
  · rintro ⟨t, u, h⟩
    refine ⟨⟨t⟩, ⟨u⟩, String.ext ?_⟩
    simpa [String.data_append] using h.symm

theorem contains_self (p : String) : Contains p p :=
  ⟨"", "", String.ext (by simp [String.data_append])⟩

theorem contains_append_left (t : String) {s p : String} (h : Contains s p) :
    Contains (t ++ s) p := by
  obtain ⟨a, b, rfl⟩ := h
  exact ⟨t ++ a, b, String.ext (by simp [String.data_append])⟩

theorem contains_append_right (t : String) {s p : String} (h : Contains s p) :
    Contains (s ++ t) p := by
  obtain ⟨a, b, rfl⟩ := h
  exact ⟨a, b ++ t, String.ext (by simp [String.data_append])⟩

theorem contains_trans {s p q : String} (h1 : Contains s p) (h2 : Contains p q) :
    Contains s q := by
  obtain ⟨a, b, rfl⟩ := h1
  obtain ⟨c, d, rfl⟩ := h2
  exact ⟨a ++ c, d ++ b, String.ext (by simp [String.data_append])⟩

theorem contains_mdJoin {l : List String} {x p : String} (hx : x ∈ l)
    (h : Contains x p) : Contains (mdJoin l) p := by
  induction l with
  | nil => cases hx
  | cons a rest ih =>
      rcases List.mem_cons.mp hx with rfl | hmem
      · exact contains_append_right _ h
      · exact contains_append_left _ (ih hmem)

/-- The first `n` characters of a string. -/
def strTake (s : String) (n : Nat) : String := ⟨s.data.take n⟩

/-- An infix of `a ++ b` lies inside `a` extended by the first `|p| - 1`
elements of `b`, or wholly inside `b`. -/
theorem infix_split {p a b : List Char} (h : p <:+: a ++ b) :
    p <:+: a ++ b.take (p.length - 1) ∨ p <:+: b := by
  obtain ⟨s, t, hst⟩ := h
  have hst' : s ++ (p ++ t) = a ++ b := by
    simpa [List.append_assoc] using hst
  rcases List.append_eq_append_iff.mp hst' with ⟨s', ha, hpt⟩ | ⟨a', hs, hb⟩
  · rcases List.append_eq_append_iff.mp hpt with ⟨p', hs', ht⟩ | ⟨e, hp, hb2⟩
    · left
      refine ⟨s, p' ++ b.take (p.length - 1), ?_⟩
      rw [ha, hs']
      simp [List.append_assoc]
    · cases s' with
      | nil =>
          right
          refine ⟨[], t, ?_⟩
          simp only [List.nil_append] at hp
          simp [hp, hb2]
      | cons c s'' =>
          left
          have hlen : e.length ≤ p.length - 1 := by
            rw [hp]
            simp only [List.length_append, List.length_cons]
            omega
          have htake : b.take (p.length - 1) =
              e ++ t.take (p.length - 1 - e.length) := by
            rw [hb2, List.take_append_eq_append_take,
              List.take_of_length_le hlen]
          refine ⟨s, t.take (p.length - 1 - e.length), ?_⟩
          rw [htake, ha, hp]
          simp [List.append_assoc]
  · right
    refine ⟨a', t, ?_⟩
    rw [hb]
    simp [List.append_assoc]

/-- String-level split of a containment across an append. -/
theorem contains_split {a b p : String} (h : Contains (a ++ b) p) :
    Contains (a ++ strTake b (p.length - 1)) p ∨ Contains b p := by
  have hdata : p.data <:+: a.data ++ b.data := by
    have h' := (contains_iff _ _).mp h
    rw [strContainsB] at h'
    have h2 := (infixOfB_correct _ _).mp h'
    simpa [String.data_append] using h2
  rcases infix_split hdata with h1 | h1
  · left
    rw [contains_iff, strContainsB]
    apply (infixOfB_correct _ _).mpr
    have hd : (a ++ strTake b (p.length - 1)).data =
        a.data ++ b.data.take (p.length - 1) := by
      simp [String.data_append, strTake]
    rw [hd]
    exact h1
  · right
    rw [contains_iff, strContainsB]
    exact (infixOfB_correct _ _).mpr h1

/-- To refute a containment in `a ++ b` it is enough to refute it in `b` and
in `a` extended by the first `|p| - 1` characters of `b`. -/
theorem not_contains_append {a b p : String}
    (ha : ¬ Contains (a ++ strTake b (p.length - 1)) p)
    (hb : ¬ Contains b p) : ¬ Contains (a ++ b) p :=
  fun h => (contains_split h).elim ha hb

theorem mem_scoreHitsFrom {pc : Option String} {ql : String}
    {maps : List (String × String)} {i : Nat} {hits : List RawSearchHit}
    {t : RankedTable} (ht : t ∈ scoreHitsFrom pc ql maps i hits) :
    ∃ j h, h ∈ hits ∧ t = scoreHit pc ql maps j h := by
  induction hits generalizing i with
  | nil => cases ht
  | cons a rest ih =>
      rcases List.mem_cons.mp ht with rfl | hmem
      · exact ⟨i, a, List.mem_cons_self a rest, rfl⟩
      · obtain ⟨j, h, hh, rfl⟩ := ih hmem
        exact ⟨j, h, List.mem_cons_of_mem a hh, rfl⟩

theorem mem_reassignRanks {i : Nat} {l : List RankedTable} {t : RankedTable}
    (ht : t ∈ reassignRanks i l) : ∃ u ∈ l, t.relevance_score = u.relevance_score := by
  induction l generalizing i with
  | nil => cases ht
  | cons a rest ih =>
      rcases List.mem_cons.mp ht with rfl | hmem
      · exact ⟨a, List.mem_cons_self a rest, rfl⟩
      · obtain ⟨u, hu, he⟩ := ih hmem
        exact ⟨u, List.mem_cons_of_mem a hu, he⟩

theorem scoreHit_relevance_le_one (pc : Option String) (ql : String)
    (maps : List (String × String)) (i : Nat) (h : RawSearchHit) :
    (scoreHit pc ql maps i h).relevance_score ≤ 1 := by
  simp only [scoreHit]
  exact min_le_right _ _

/-! ## Concrete data used by witnesses and counterexamples -/

/-- A single-column DataFrame with rows `[1, 2, 2, 2, 3]`. -/
def singleColDupData : DataFrame :=
  { cols := ["A"], rows := [[.int 1], [.int 2], [.int 2], [.int 2], [.int 3]] }

/-- A DataFrame with no columns: `df.describe(include='all')` raises on it. -/
def noColumnsData : DataFrame := { cols := [], rows := [] }

/-- A check-execution oracle: the outcome of running each available check on
the dummy fallback data. -/
def dualEntryExec : String → CheckResult := fun name =>
  if name = "duplicates" then check_dataset_duplicates "orders" dummyFallbackData
  else if name = "null_values" then check_dataset_null_values "orders" dummyFallbackData
  else check_dataset_descriptive_stats "orders" dummyFallbackData

/-! ## Claim theorems -/

/-- C1: Dual-entry equivalence.  For every `check_results` map, dataset id and
connector type, when direct execution's per-check results equal that map,
`run_full_assessment` and `create_assessment_from_results` produce identical
`Assessment` structures — every metadata field, each check result, the
summary counts and the recommendations list (`run_full_assessment` feeds the
very same map through `create_assessment_from_results`, including the shared
timestamp acquisition). -/
theorem run_full_assessment_dual_entry (execCheck : String → CheckResult)
    (dataset_id connector_type : String) (checks : List String) (now_iso : String)
    (check_results : List (String × CheckResult))
    (h : checksToResults execCheck checks = check_results) :
    run_full_assessment execCheck dataset_id connector_type checks now_iso =
      create_assessment_from_results check_results dataset_id connector_type now_iso := by
  rw [run_full_assessment, h]

/-- Witness for C1 at a concrete execution oracle and check list. -/
theorem run_full_assessment_dual_entry_witness :
    run_full_assessment dualEntryExec "orders" "postgres" ["duplicates", "extra"]
        "2025-06-01T12:00:00" =
      create_assessment_from_results [("duplicates", dualEntryExec "duplicates")]
        "orders" "postgres" "2025-06-01T12:00:00" :=
  run_full_assessment_dual_entry dualEntryExec "orders" "postgres"
    ["duplicates", "extra"] "2025-06-01T12:00:00"
    [("duplicates", dualEntryExec "duplicates")] rfl

/-- C2: For every assessment built by `create_assessment_from_results`, the
summary satisfies `passed_checks + failed_checks + error_checks =
len(check_results)`: each entry is classified into exactly one bucket. -/
theorem assessment_summary_partition (check_results : List (String × CheckResult))
    (dataset_id connector_type now_iso : String) :
    (create_assessment_from_results check_results dataset_id connector_type
        now_iso).summary.passed_checks +
    (create_assessment_from_results check_results dataset_id connector_type
        now_iso).summary.failed_checks +
    (create_assessment_from_results check_results dataset_id connector_type
        now_iso).summary.error_checks = check_results.length := by
  show (summarizeResults check_results).passed_checks +
    (summarizeResults check_results).failed_checks +
    (summarizeResults check_results).error_checks = check_results.length
  induction check_results with
  | nil => rfl
  | cons e l ih =>
      simp only [summarizeResults, List.countP_cons, List.length_cons] at ih ⊢
      cases h : classifyCheckResult e.1 e.2 <;> simp [h] <;> omega

/-- C10: In `create_assessment_from_results`, a check result with
`status='success'` whose name is none of the three known checks is classified
`failed`, never `passed`: the summary's failed bucket counts it. -/
theorem unknown_success_check_counted_failed (check_name : String)
    (result : CheckResult) (hs : result.status = "success")
    (h1 : check_name ≠ "duplicates") (h2 : check_name ≠ "null_values")
    (h3 : check_name ≠ "descriptive_stats") :
    classifyCheckResult check_name result = CheckBucket.failed ∧
    summarizeResults [(check_name, result)] =
      { passed_checks := 0, failed_checks := 1, error_checks := 0 } := by
  have hc : classifyCheckResult check_name result = CheckBucket.failed := by
    simp [classifyCheckResult, hs, h1, h2, h3]
  exact ⟨hc, by simp [summarizeResults, hc]⟩

/-- Witness for C10 at a concrete unknown check name. -/
theorem unknown_success_check_counted_failed_witness :
    classifyCheckResult "custom_check" { status := "success" } = CheckBucket.failed ∧
    summarizeResults [("custom_check", { status := "success" })] =
      { passed_checks := 0, failed_checks := 1, error_checks := 0 } :=
  unknown_success_check_counted_failed "custom_check" { status := "success" }
    rfl (by decide) (by decide) (by decide)

/-- C5 counterexample: on the single-column rows `[1,2,2,2,3]` the duplicate
check reports `total_rows = 5` and `duplicate_qty = 2` as claimed, but its
`status` is `'failure'`, not `'success'`: the check encodes the domain
verdict in the status field. -/
theorem duplicate_example_status_counterexample :
    (check_dataset_duplicates "test_data_set" singleColDupData).total_rows = some 5 ∧
    (check_dataset_duplicates "test_data_set" singleColDupData).duplicate_qty = some 2 ∧
    (check_dataset_duplicates "test_data_set" singleColDupData).status ≠ "success" := by
  decide

/-- C5 (amended): on the single-column rows `[1,2,2,2,3]` the duplicate check
returns `total_rows = 5`, `duplicate_qty = 2` and `status = 'failure'`,
because the status field itself carries the domain verdict
(`'success'` iff `duplicate_qty == 0`). -/
theorem duplicate_example_amended :
    check_dataset_duplicates "test_data_set" singleColDupData =
      { dataset_id := "test_data_set", total_rows := some 5,
        duplicate_qty := some 2, status := "failure" } := by
  decide

/-- C4 counterexample: a check body that raises is answered with
`status='failure'`, not `status='error'` (descriptive stats on a DataFrame
without columns), and the duplicates check reports a non-`success` status on
an execution that raised no exception. -/
theorem error_status_convention_counterexample :
    (check_dataset_descriptive_stats "ds" noColumnsData).status = "failure" ∧
    (check_dataset_descriptive_stats "ds" noColumnsData).error =
      some "Cannot describe a DataFrame without columns" ∧
    (check_dataset_descriptive_stats "ds" noColumnsData).status ≠ "error" ∧
    (check_dataset_duplicates "ds" singleColDupData).status ≠ "success" := by
  decide

/-- C4 (amended): the null-profile and descriptive-stats checks catch their
own execution exceptions and return `status='failure'` (not `'error'`) with
an error message; the duplicates check has no handler but its body cannot
raise after loading, and its `status` encodes the domain verdict
(`'success'` iff no duplicate rows), so only for the other two checks does
`status='success'` mean merely "executed without exception". -/
theorem check_exception_handling_amended :
    (∀ dataset_id df, df.cols = [] →
        check_dataset_descriptive_stats dataset_id df =
          { dataset_id := dataset_id,
            error := some "Cannot describe a DataFrame without columns",
            status := "failure" }) ∧
    (∀ dataset_id df, df.cols ≠ [] →
        (check_dataset_descriptive_stats dataset_id df).status = "success") ∧
    (∀ dataset_id df, (check_dataset_null_values dataset_id df).status = "success") ∧
    (∀ dataset_id df,
        ((check_dataset_duplicates dataset_id df).status = "success" ↔
          (df.rows.length : Int) - (df.rows.eraseDups.length : Int) = 0)) := by
  refine ⟨?_, ?_, ?_, ?_⟩
  · intro d df h
    simp [check_dataset_descriptive_stats, describeAll, h]
  · intro d df h
    simp [check_dataset_descriptive_stats, describeAll, h]
  · intro d df
    rfl
  · intro d df
    simp only [check_dataset_duplicates]
    by_cases h : (df.rows.length : Int) - (df.rows.eraseDups.length : Int) = 0
    · simp [h]
    · simp [h]

/-- Witness for C4 (amended) at concrete DataFrames. -/
theorem check_exception_handling_amended_witness :
    (noColumnsData.cols = [] ∧
      check_dataset_descriptive_stats "ds2" noColumnsData =
        { dataset_id := "ds2",
          error := some "Cannot describe a DataFrame without columns",
          status := "failure" }) ∧
    (singleColDupData.cols ≠ [] ∧
      (check_dataset_descriptive_stats "ds2" singleColDupData).status = "success") :=
  ⟨⟨rfl, check_exception_handling_amended.1 "ds2" noColumnsData rfl⟩,
   ⟨by decide, check_exception_handling_amended.2.1 "ds2" singleColDupData (by decide)⟩⟩

/-- C9 (code-bug evaluation): running the duplicate check on data with two
duplicate rows yields `duplicate_qty = 2` with `status='failure'`, and
`generate_recommendations` — whose duplicates rule fires only on
`status='success'` — then emits no `'Remove Duplicate Records'`
recommendation at all. -/
theorem duplicates_recommendation_never_fires :
    (check_dataset_duplicates "stage_sales.public.customers"
        dummyFallbackData).duplicate_qty = some 2 ∧
    (check_dataset_duplicates "stage_sales.public.customers"
        dummyFallbackData).status = "failure" ∧
    ∀ rec ∈ generate_recommendations
        [("duplicates",
          check_dataset_duplicates "stage_sales.public.customers" dummyFallbackData)],
      rec.title ≠ "Remove Duplicate Records" := by
  refine ⟨by decide, by decide, ?_⟩
  intro rec hrec
  have hst : (check_dataset_duplicates "stage_sales.public.customers"
      dummyFallbackData).status = "failure" := by decide
  simp only [generate_recommendations] at hrec
  rw [(List.perm_insertionSort _ _).mem_iff] at hrec
  simp only [List.lookup, hst, List.filter, List.length_cons] at hrec
  simp at hrec
  rcases hrec with h | h
  · have h1 := h.1
    rw [hst] at h1
    exact absurd h1 (by decide)
  · split at h
    · simp only [List.mem_singleton] at h
      rw [h]
      decide
    · split at h
      · simp only [List.mem_singleton] at h
        rw [h]
        decide
      · cases h

/-- A raw hit at distance `1/4` whose table name matches the query word. -/
def w3hit : RawSearchHit :=
  { document := "doc", table_name := "orders", full_name := "stage_sales.public.orders",
    connector_type := "postgres", distance := 1/4 }

/-- The ranked hit `search_tables "orders"` produces from `w3hit`:
`min((1 - 1/4) + 0.2, 1) = 19/20`. -/
def w3scored : RankedTable :=
  { rank := 1, table_name := "orders", full_name := "stage_sales.public.orders",
    metadata_doc := "doc", relevance_score := 19/20, connector_type := "postgres",
    original_relevance := 3/4, boosted := false, table_boost := 1/5,
    detected_db := none, db_mappings_used := none }

theorem hscW3 : scoreHit none (pyLower "orders") [] 0 w3hit = w3scored := by
  have h1 : pySplitWs (pyLower "orders") = ["orders"] := by decide
  have h3 : List.filter (fun w => decide (3 ≤ w.length) && strContainsB (pyLower "orders") w)
      ["orders"] = ["orders"] := by decide
  simp only [scoreHit, w3hit, h1, h3, w3scored]
  simp
  norm_num [min_def]

theorem searchW3 : search_tables "orders" [] [w3hit] 3 (1/20) = [w3scored] := by
  have hdet : detectPreferredConnector (pyLower "orders") [] = none := by
    simp [detectPreferredConnector]
    decide
  simp only [search_tables, hdet, scoreHitsFrom, hscW3]
  have hfil : List.filter (fun t => decide ((1:ℚ)/20 ≤ t.relevance_score)) [w3scored] =
      [w3scored] := by
    simp only [List.filter, w3scored]
    norm_num
  simp only [List.insertionSort, List.orderedInsert, hfil, List.take, reassignRanks]
  rfl

/-- A raw hit at distance `3/2`, i.e. raw similarity `-1/2`, for a query that
names its connector explicitly. -/
def c3hit : RawSearchHit :=
  { document := "doc", table_name := "t", full_name := "db.s.t",
    connector_type := "postgres", distance := 3/2 }

/-- C3 counterexample: the raw similarity `1 - distance` is NOT clamped to
`[0, 1]` before boosting.  At distance `3/2` with a matching connector
preference, `search_tables` computes `min(-1/2 + 0.3, 1) = -1/5`, drops the
hit at the default-range threshold `1/20` and returns the empty list, whereas
the spec-described clamped scoring returns the hit with score `3/10`. -/
theorem relevance_clamp_counterexample :
    search_tables "postgres" [] [c3hit] 3 (1/20) = [] ∧
    (search_tables_clamped_spec "postgres" [] [c3hit] 3 (1/20)).map
      (fun t => t.relevance_score) = [3/10] := by
  have hdet : detectPreferredConnector (pyLower "postgres") [] = some "postgres" := by
    simp [detectPreferredConnector]
    decide
  have h1 : pySplitWs (pyLower "postgres") = ["postgres"] := by decide
  have h3 : List.filter
      (fun w => decide (3 ≤ w.length) && strContainsB (pyLower "t") w) ["postgres"] = [] := by
    decide
  constructor
  · simp only [search_tables, hdet, scoreHitsFrom, scoreHit, c3hit, h1, h3]
    simp only [List.length_nil]
    norm_num [min_def, List.insertionSort, List.orderedInsert, List.filter]
    simp [reassignRanks]
  · simp only [search_tables_clamped_spec, hdet, scoreHitsClampedFrom, scoreHitClampedSpec,
      c3hit, h1, h3]
    simp only [List.length_nil]
    norm_num [min_def, max_def, List.insertionSort, List.orderedInsert, List.filter]
    simp [reassignRanks]

/-- C3 (amended): no clamp is applied to the raw similarity; instead every
boosted score is capped at `1` by the final `min(·, 1.0)`, and threshold
filtering keeps only scores `≥ min_relevance`.  Hence whenever
`0 ≤ min_relevance` (the documented range of the parameter), every returned
hit's `relevance_score` lies in `[0, 1]`, for any input distances. -/
theorem search_scores_within_bounds (query : String) (maps : List (String × String))
    (rawHits : List RawSearchHit) (top_k : Nat) (min_relevance : ℚ)
    (t : RankedTable) (hmin : 0 ≤ min_relevance)
    (ht : t ∈ search_tables query maps rawHits top_k min_relevance) :
    0 ≤ t.relevance_score ∧ t.relevance_score ≤ 1 := by
  simp only [search_tables] at ht
  obtain ⟨u, hu, hscore⟩ := mem_reassignRanks ht
  have hu' := List.mem_of_mem_take hu
  have hpred := List.mem_filter.mp hu'
  have hle : min_relevance ≤ u.relevance_score := by
    simpa using hpred.2
  have hmem := hpred.1
  rw [(List.perm_insertionSort _ _).mem_iff] at hmem
  obtain ⟨j, h, _, rfl⟩ := mem_scoreHitsFrom hmem
  rw [hscore]
  exact ⟨hmin.trans hle, scoreHit_relevance_le_one _ _ _ _ _⟩

/-- Witness for C3 (amended) at a concrete query and hit. -/
theorem search_scores_within_bounds_witness :
    (0 : ℚ) ≤ 1/20 ∧
    (0 ≤ w3scored.relevance_score ∧ w3scored.relevance_score ≤ 1) :=
  ⟨by norm_num,
   search_scores_within_bounds "orders" [] [w3hit] 3 (1/20) w3scored (by norm_num)
     (by rw [searchW3]; exact List.mem_singleton.mpr rfl)⟩

/-- A raw hit at distance `9/10`: its boosted score `1/10` falls below a
`min_relevance` of `1/2`. -/
def w6hit : RawSearchHit :=
  { document := "doc", table_name := "t", full_name := "db.s.t",
    connector_type := "postgres", distance := 9/10 }

theorem w6AllBelow :
    ∀ t ∈ scoreHitsFrom (detectPreferredConnector (pyLower "zz") []) (pyLower "zz") [] 0
        [w6hit],
      t.relevance_score < 1/2 := by
  have hdet : detectPreferredConnector (pyLower "zz") [] = none := by
    simp [detectPreferredConnector]
    decide
  have h1 : pySplitWs (pyLower "zz") = ["zz"] := by decide
  have h3 : List.filter
      (fun w => decide (3 ≤ w.length) && strContainsB (pyLower "t") w) ["zz"] = [] := by
    decide
  intro t ht
  simp only [hdet, scoreHitsFrom, scoreHit, w6hit, h1, h3] at ht
  rcases List.mem_cons.mp ht with rfl | hc
  · simp only [List.length_nil]
    simp
    norm_num [min_def]
  · cases hc

/-- C6 (amended): hits whose boosted score falls below `min_relevance` are
simply discarded; when every boosted hit falls below the threshold,
`search_tables` returns the empty list — no best-raw-match diagnostic is
produced. -/
theorem below_threshold_returns_empty (query : String) (maps : List (String × String))
    (rawHits : List RawSearchHit) (top_k : Nat) (min_relevance : ℚ)
    (h : ∀ t ∈ scoreHitsFrom (detectPreferredConnector (pyLower query) maps)
        (pyLower query) maps 0 rawHits, t.relevance_score < min_relevance) :
    search_tables query maps rawHits top_k min_relevance = [] := by
  have hfil : ∀ l : List RankedTable, (∀ t ∈ l, t.relevance_score < min_relevance) →
      l.filter (fun t => min_relevance ≤ t.relevance_score) = [] := by
    intro l hl
    refine List.filter_eq_nil_iff.mpr ?_
    intro t ht
    simpa using not_le.mpr (hl t ht)
  simp only [search_tables]
  rw [hfil _ (fun t ht => h t ((List.perm_insertionSort _ _).mem_iff.mp ht))]
  simp [List.take_nil, reassignRanks]

/-- Witness for C6 (amended): one raw hit, boosted score `1/10 < 1/2`. -/
theorem below_threshold_returns_empty_witness :
    search_tables "zz" [] [w6hit] 3 (1/2) = [] :=
  below_threshold_returns_empty "zz" [] [w6hit] 3 (1/2) w6AllBelow

/-- C6 counterexample: the raw search returned a hit, every boosted hit is
below `min_relevance`, and `search_tables` returns the empty list — not the
best raw match with its score. -/
theorem below_threshold_counterexample :
    ([w6hit] ≠ ([] : List RawSearchHit)) ∧
    search_tables "zz" [] [w6hit] 3 (1/2) = [] := by
  refine ⟨by decide, ?_⟩
  have hfil : ∀ l : List RankedTable, (∀ t ∈ l, t.relevance_score < 1/2) →
      l.filter (fun t => (1:ℚ)/2 ≤ t.relevance_score) = [] := by
    intro l hl
    refine List.filter_eq_nil_iff.mpr ?_
    intro t ht
    simpa using not_le.mpr (hl t ht)
  simp only [search_tables]
  rw [hfil _ (fun t ht => w6AllBelow t ((List.perm_insertionSort _ _).mem_iff.mp ht))]
  simp [List.take_nil, reassignRanks]

/-! ## Containment lemmas for the renderers -/

theorem contains_congr_piece {s p p' : String} (h : Contains s p) (e : p = p') :
    Contains s p' := e ▸ h

/-- A piece of the duplicates body reaches the full markdown section when the
result's status is `'success'`. -/
theorem contains_mdSection_dup {r : CheckResult} {p : String}
    (hst : r.status = "success") (h : Contains (mdDuplicatesBody r) p) :
    Contains (mdCheckSection "duplicates" r) p := by
  unfold mdCheckSection
  simp only [hst]
  simp only [reduceIte]
  exact contains_append_right _ (contains_append_left _ h)

/-- A piece of the duplicates body reaches the full HTML section when the
result's status is `'success'` or `'failure'` (the HTML renderer shows the
duplicates figures in both cases, line 265). -/
theorem contains_htmlSection_dup {r : CheckResult} {p : String}
    (hbr : r.status = "success" ∨ r.status = "failure")
    (h : Contains (htmlDuplicatesBody r) p) :
    Contains (htmlCheckSection "duplicates" r) p := by
  unfold htmlCheckSection
  rcases hbr with h1 | h1 <;>
    · simp only [h1]
      simp
      exact contains_append_right _ (contains_append_left _ h)

theorem contains_ppJsonObjItems (ind : Nat) {k : String} {v : JValue}
    {l : List (String × JValue)} {k' : String} {v' : JValue}
    (hm : (k', v') ∈ (k, v) :: l) :
    Contains (ppJsonObjItems ind k v l)
      ("\"" ++ jsonEscape k' ++ "\": " ++ ppJson ind v') := by
  induction l generalizing k v with
  | nil =>
      rcases List.mem_cons.mp hm with h | h
      · injection h with hk hv
        subst hk
        subst hv
        exact ⟨indentStr ind, "",
          String.ext (by simp [String.data_append, ppJsonObjItems])⟩
      · cases h
  | cons kw rest ih =>
      obtain ⟨k2, v2⟩ := kw
      rcases List.mem_cons.mp hm with h | h
      · injection h with hk hv
        subst hk
        subst hv
        exact ⟨indentStr ind,
          ",\n" ++ ppJsonObjItems ind k2 v2 rest,
          String.ext (by simp [String.data_append, ppJsonObjItems])⟩
      · simp only [ppJsonObjItems]
        exact contains_append_left _ (@ih k2 v2 h)

theorem contains_ppJson_obj (ind : Nat) {l : List (String × JValue)}
    {k' : String} {v' : JValue} (hm : (k', v') ∈ l) :
    Contains (ppJson ind (.jobj l))
      ("\"" ++ jsonEscape k' ++ "\": " ++ ppJson (ind + 2) v') := by
  cases l with
  | nil => cases hm
  | cons kv rest =>
      obtain ⟨k, v⟩ := kv
      have h := contains_ppJsonObjItems (ind + 2) hm
      simp only [ppJson]
      exact contains_append_right _ (contains_append_right _
        (contains_append_right _ (contains_append_left _ h)))

/-- A piece of the null-profile body reaches the full markdown section when
the result's status is `'success'`. -/
theorem contains_mdSection_null {r : CheckResult} {p : String}
    (hst : r.status = "success") (h : Contains (mdNullValuesBody r) p) :
    Contains (mdCheckSection "null_values" r) p := by
  unfold mdCheckSection
  simp only [hst]
  simp only [reduceIte]
  exact contains_append_right _ (contains_append_left _ h)

/-- A piece of the null-profile body reaches the full HTML section when the
result's status is `'success'` (the HTML null branch re-checks the status,
line 288). -/
theorem contains_htmlSection_null {r : CheckResult} {p : String}
    (hst : r.status = "success") (h : Contains (htmlNullValuesBody r) p) :
    Contains (htmlCheckSection "null_values" r) p := by
  unfold htmlCheckSection
  simp only [hst]
  simp
  exact contains_append_right _ (contains_append_left _ h)

/-- A piece of the single element of a one-element JSON array reaches the
printed array. -/
theorem contains_ppJson_arr_single (ind : Nat) {v : JValue} {p : String}
    (h : Contains (ppJson (ind + 2) v) p) :
    Contains (ppJson ind (.jarr [v])) p := by
  simp only [ppJson, ppJsonArrItems]
  exact contains_append_right _ (contains_append_right _ (contains_append_right _
    (contains_append_left _ (contains_append_left _ h))))

/-- The null-profile line that both the markdown and the HTML renderers emit
for a stored null-analysis entry, as a shared fact: both formats show
`fmtComma c.null_count` and `fmtFixed 1 c.null_percentage` of the same
stored values. -/
theorem contains_null_line_bodies {r : CheckResult} {c : NullColumnInfo}
    (hcwn : 0 < r.columns_with_nulls.getD 0)
    (hc : c ∈ r.null_analysis.getD []) :
    Contains (mdNullValuesBody r)
      ("- `" ++ c.column_name ++ "`: " ++ fmtComma c.null_count ++ " nulls (" ++
        fmtFixed 1 c.null_percentage ++ "%)\n") ∧
    Contains (htmlNullValuesBody r)
      ("<li><code>" ++ c.column_name ++ "</code>: " ++ fmtComma c.null_count ++
        " nulls (" ++ fmtFixed 1 c.null_percentage ++ "%)</li>") := by
  have hne : r.null_analysis.getD [] ≠ [] := List.ne_nil_of_mem hc
  constructor
  · simp only [mdNullValuesBody]
    rw [if_pos hcwn, if_pos hne]
    exact contains_append_left _ (contains_append_left _ (contains_append_left _
      (contains_mdJoin (List.mem_map_of_mem _ hc) (contains_self _))))
  · simp only [htmlNullValuesBody]
    rw [if_pos hcwn, if_pos hne]
    exact contains_append_left _ (contains_append_left _
      (contains_append_right _ (contains_append_left _
        (contains_mdJoin (List.mem_map_of_mem _ hc) (contains_self _)))))

/-- The duplicates-figures part of the C7 statement, factored out. -/
theorem duplicates_figures_aux (a : Assessment) (t_md t_html t_json : String)
    (r : CheckResult) (n q : Int)
    (hmem : ("duplicates", r) ∈ a.check_results)
    (hst : r.status = "success")
    (hn : r.total_rows = some n) (hq : r.duplicate_qty = some q) :
    (Contains (render_markdown_template a t_md)
        ("- **Total Rows**: " ++ fmtComma n ++ "\n") ∧
     Contains (render_markdown_template a t_md)
        ("- **Duplicate Records**: " ++ fmtComma q ++ " (")) ∧
    (Contains (render_html_template a t_html)
        ("<p><strong>Total Rows:</strong> " ++ fmtComma n ++ "</p>") ∧
     Contains (render_html_template a t_html)
        ("<p><strong>Duplicate Records:</strong> " ++ fmtComma q ++ " (")) ∧
    (Contains (generate_json_report a t_json) ("\"total_rows\": " ++ toString n) ∧
     Contains (generate_json_report a t_json) ("\"duplicate_qty\": " ++ toString q)) := by
  have hbody1 : Contains (mdDuplicatesBody r) ("- **Total Rows**: " ++ fmtComma n ++ "\n") := by
    simp only [mdDuplicatesBody, hn, hq, Option.getD_some]
    exact contains_mdJoin (List.mem_cons_of_mem _ (List.mem_cons_self _ _)) (contains_self _)
  have hbody2 : Contains (mdDuplicatesBody r)
      ("- **Duplicate Records**: " ++ fmtComma q ++ " (") := by
    simp only [mdDuplicatesBody, hn, hq, Option.getD_some]
    exact contains_mdJoin
      (List.mem_cons_of_mem _ (List.mem_cons_of_mem _ (List.mem_cons_self _ _)))
      (contains_self _)
  have hmd : ∀ p, Contains (mdCheckSection "duplicates" r) p →
      Contains (render_markdown_template a t_md) p := by
    intro p hp
    unfold render_markdown_template
    exact contains_append_right _ (contains_append_right _ (contains_append_left _
      (contains_mdJoin (List.mem_map_of_mem _ hmem) hp)))
  have hbodyH1 : Contains (htmlDuplicatesBody r)
      ("<p><strong>Total Rows:</strong> " ++ fmtComma n ++ "</p>") := by
    simp only [htmlDuplicatesBody, hn, hq, Option.getD_some]
    exact contains_mdJoin (List.mem_cons_of_mem _ (List.mem_cons_self _ _)) (contains_self _)
  have hbodyH2 : Contains (htmlDuplicatesBody r)
      ("<p><strong>Duplicate Records:</strong> " ++ fmtComma q ++ " (") := by
    simp only [htmlDuplicatesBody, hn, hq, Option.getD_some]
    exact contains_mdJoin
      (List.mem_cons_of_mem _ (List.mem_cons_of_mem _
        (List.mem_cons_of_mem _ (List.mem_cons_self _ _))))
      (contains_self _)
  have hhtml : ∀ p, Contains (htmlCheckSection "duplicates" r) p →
      Contains (render_html_template a t_html) p := by
    intro p hp
    unfold render_html_template
    exact contains_append_right _ (contains_append_right _ (contains_append_left _
      (contains_mdJoin (List.mem_map_of_mem _ hmem) hp)))
  have htop : Contains (generate_json_report a t_json)
      ("\"" ++ jsonEscape "check_results" ++ "\": " ++
        ppJson 2 (JValue.jobj (a.check_results.map (fun e => (e.1, checkResultToJson e.2))))) := by
    unfold generate_json_report assessmentToJson
    exact contains_ppJson_obj 0 (by simp)
  have hdupJ : Contains
      (ppJson 2 (JValue.jobj (a.check_results.map (fun e => (e.1, checkResultToJson e.2)))))
      ("\"" ++ jsonEscape "duplicates" ++ "\": " ++ ppJson 4 (checkResultToJson r)) :=
    contains_ppJson_obj 2 (List.mem_map_of_mem _ hmem)
  have htrJ : Contains (ppJson 4 (checkResultToJson r))
      ("\"" ++ jsonEscape "total_rows" ++ "\": " ++ ppJson 6 (JValue.jint n)) :=
    contains_ppJson_obj 4 (by simp [checkResultToJson, hn])
  have hdqJ : Contains (ppJson 4 (checkResultToJson r))
      ("\"" ++ jsonEscape "duplicate_qty" ++ "\": " ++ ppJson 6 (JValue.jint q)) :=
    contains_ppJson_obj 4 (by simp [checkResultToJson, hq])
  have hJdup : Contains (generate_json_report a t_json)
      ("\"" ++ jsonEscape "duplicates" ++ "\": " ++ ppJson 4 (checkResultToJson r)) :=
    contains_trans htop (contains_append_left _ hdupJ)
  have e1 : ("\"" ++ jsonEscape "total_rows" ++ "\": " ++ ppJson 6 (JValue.jint n)) =
      "\"total_rows\": " ++ toString n := by
    rw [show ("\"" ++ jsonEscape "total_rows" ++ "\": ") = "\"total_rows\": " from by decide]
    simp only [ppJson]
  have e2 : ("\"" ++ jsonEscape "duplicate_qty" ++ "\": " ++ ppJson 6 (JValue.jint q)) =
      "\"duplicate_qty\": " ++ toString q := by
    rw [show ("\"" ++ jsonEscape "duplicate_qty" ++ "\": ") = "\"duplicate_qty\": " from by
      decide]
    simp only [ppJson]
  refine ⟨⟨hmd _ (contains_mdSection_dup hst hbody1),
           hmd _ (contains_mdSection_dup hst hbody2)⟩,
          ⟨hhtml _ (contains_htmlSection_dup (Or.inl hst) hbodyH1),
           hhtml _ (contains_htmlSection_dup (Or.inl hst) hbodyH2)⟩,
          ⟨contains_congr_piece
             (contains_trans hJdup (contains_append_left _ htrJ)) e1,
           contains_congr_piece
             (contains_trans hJdup (contains_append_left _ hdqJ)) e2⟩⟩

/-- C7 (amended): for every assessment whose `check_results` holds a
duplicates entry with `status='success'`, the markdown, HTML and JSON
renderings all display that entry's stored `total_rows` and `duplicate_qty` —
markdown and HTML through the same comma formatting of the same stored
integers, JSON as the serialized raw values; and for every null-profile entry
with `status='success'`, markdown and HTML render each stored null-analysis
column through the same one-decimal formatting of the same stored
`null_percentage` (and the same comma formatting of the same `null_count`),
while JSON serialises the stored two-decimal value — so the percentage
numerals agree between markdown and HTML but not with JSON (see the
counterexample).  For `status='failure'` duplicates results the HTML still
shows the figures while the markdown shows an error block without them: see
the counterexample. -/
theorem duplicates_figures_cross_format :
    (∀ (a : Assessment) (t_md t_html t_json : String) (r : CheckResult) (n q : Int),
      ("duplicates", r) ∈ a.check_results → r.status = "success" →
      r.total_rows = some n → r.duplicate_qty = some q →
      (Contains (render_markdown_template a t_md)
          ("- **Total Rows**: " ++ fmtComma n ++ "\n") ∧
       Contains (render_markdown_template a t_md)
          ("- **Duplicate Records**: " ++ fmtComma q ++ " (")) ∧
      (Contains (render_html_template a t_html)
          ("<p><strong>Total Rows:</strong> " ++ fmtComma n ++ "</p>") ∧
       Contains (render_html_template a t_html)
          ("<p><strong>Duplicate Records:</strong> " ++ fmtComma q ++ " (")) ∧
      (Contains (generate_json_report a t_json) ("\"total_rows\": " ++ toString n) ∧
       Contains (generate_json_report a t_json)
          ("\"duplicate_qty\": " ++ toString q))) ∧
    (∀ (a : Assessment) (t_md t_html : String) (rn : CheckResult) (c : NullColumnInfo),
      ("null_values", rn) ∈ a.check_results → rn.status = "success" →
      0 < rn.columns_with_nulls.getD 0 → c ∈ rn.null_analysis.getD [] →
      Contains (render_markdown_template a t_md)
        ("- `" ++ c.column_name ++ "`: " ++ fmtComma c.null_count ++ " nulls (" ++
          fmtFixed 1 c.null_percentage ++ "%)\n") ∧
      Contains (render_html_template a t_html)
        ("<li><code>" ++ c.column_name ++ "</code>: " ++ fmtComma c.null_count ++
          " nulls (" ++ fmtFixed 1 c.null_percentage ++ "%)</li>")) := by
  constructor
  · intro a t_md t_html t_json r n q hmem hst hn hq
    exact duplicates_figures_aux a t_md t_html t_json r n q hmem hst hn hq
  · intro a t_md t_html rn c hmem hst hcwn hc
    have hb := contains_null_line_bodies hcwn hc
    constructor
    · unfold render_markdown_template
      exact contains_append_right _ (contains_append_right _ (contains_append_left _
        (contains_mdJoin (List.mem_map_of_mem _ hmem)
          (contains_mdSection_null hst hb.1))))
    · unfold render_html_template
      exact contains_append_right _ (contains_append_right _ (contains_append_left _
        (contains_mdJoin (List.mem_map_of_mem _ hmem)
          (contains_htmlSection_null hst hb.2))))

/-- A two-row frame without duplicates. -/
def okDupData : DataFrame := { cols := ["A"], rows := [[.int 1], [.int 2]] }

/-- A successful duplicates result: 2 rows, 0 duplicates. -/
def cDupOk : CheckResult := check_dataset_duplicates "t" okDupData

def cAssessOk : Assessment :=
  create_assessment_from_results [("duplicates", cDupOk)] "t" "postgres"
    "2025-01-01T00:00:00"

/-- A three-row single-column frame with one missing value: null percentage
`round(1/3*100, 2) = 33.33`. -/
def nullColData : DataFrame :=
  { cols := ["email"], rows := [[.str "a@x"], [.null], [.str "b@x"]] }

def cNullOk : CheckResult := check_dataset_null_values "t" nullColData

/-- The value of `cNullOk`, written out. -/
def cNullLit : CheckResult :=
  { dataset_id := "t", total_rows := some 3, total_columns := some 1,
    columns_with_nulls := some 1,
    null_analysis := some [{ column_name := "email", null_count := 1,
                             null_percentage := 3333/100 }],
    status := "success" }

theorem cNullEval : cNullOk = cNullLit := by
  simp [cNullOk, check_dataset_null_values, nullColData, DataFrame.col,
    standardizeNulls, cNullLit, List.insertionSort, List.orderedInsert]
  norm_num [roundTo2, round_eq]

def cAssessNull : Assessment :=
  create_assessment_from_results [("null_values", cNullOk)] "t" "postgres"
    "2025-01-01T00:00:00"

/-- Witness for C7 (amended) at a concrete successful assessment for the
duplicates part and a concrete null-profile assessment for the
null-percentage part. -/
theorem duplicates_figures_cross_format_witness :
    (("duplicates", cDupOk) ∈ cAssessOk.check_results ∧ cDupOk.status = "success" ∧
     cDupOk.total_rows = some 2 ∧ cDupOk.duplicate_qty = some 0) ∧
    ((Contains (render_markdown_template cAssessOk "2025-01-01 00:00:01")
        ("- **Total Rows**: " ++ fmtComma 2 ++ "\n") ∧
      Contains (render_markdown_template cAssessOk "2025-01-01 00:00:01")
        ("- **Duplicate Records**: " ++ fmtComma 0 ++ " (")) ∧
     (Contains (render_html_template cAssessOk "2025-01-01 00:00:01")
        ("<p><strong>Total Rows:</strong> " ++ fmtComma 2 ++ "</p>") ∧
      Contains (render_html_template cAssessOk "2025-01-01 00:00:01")
        ("<p><strong>Duplicate Records:</strong> " ++ fmtComma 0 ++ " (")) ∧
     (Contains (generate_json_report cAssessOk "2025-01-01 00:00:01")
        ("\"total_rows\": " ++ toString (2 : Int)) ∧
      Contains (generate_json_report cAssessOk "2025-01-01 00:00:01")
        ("\"duplicate_qty\": " ++ toString (0 : Int)))) ∧
    (("null_values", cNullOk) ∈ cAssessNull.check_results ∧
     cNullOk.status = "success" ∧ 0 < cNullOk.columns_with_nulls.getD 0 ∧
     ({ column_name := "email", null_count := 1, null_percentage := 3333/100 } : NullColumnInfo) ∈
       cNullOk.null_analysis.getD []) ∧
    (Contains (render_markdown_template cAssessNull "2025-01-01 00:00:01")
        ("- `" ++ "email" ++ "`: " ++ fmtComma 1 ++ " nulls (" ++
          fmtFixed 1 ((3333 : ℚ)/100) ++ "%)\n") ∧
     Contains (render_html_template cAssessNull "2025-01-01 00:00:01")
        ("<li><code>" ++ "email" ++ "</code>: " ++ fmtComma 1 ++ " nulls (" ++
          fmtFixed 1 ((3333 : ℚ)/100) ++ "%)</li>")) := by
  have hm : ("null_values", cNullOk) ∈ cAssessNull.check_results :=
    List.mem_cons_self _ _
  have hs : cNullOk.status = "success" := rfl
  have hcw : 0 < cNullOk.columns_with_nulls.getD 0 := by
    rw [cNullEval]
    decide
  have hcm : ({ column_name := "email", null_count := 1, null_percentage := 3333/100 } : NullColumnInfo) ∈
      cNullOk.null_analysis.getD [] := by
    rw [cNullEval]
    exact List.mem_cons_self _ _
  exact ⟨⟨by decide, by decide, by decide, by decide⟩,
    duplicates_figures_cross_format.1 cAssessOk "2025-01-01 00:00:01"
      "2025-01-01 00:00:01" "2025-01-01 00:00:01" cDupOk 2 0
      (by decide) (by decide) (by decide) (by decide),
    ⟨hm, hs, hcw, hcm⟩,
    duplicates_figures_cross_format.2 cAssessNull "2025-01-01 00:00:01"
      "2025-01-01 00:00:01" cNullOk
      { column_name := "email", null_count := 1, null_percentage := 3333/100 }
      hm hs hcw hcm⟩

/-- The duplicates result for `[1,2,2,2,3]`: status `'failure'`. -/
def cDupFail : CheckResult := check_dataset_duplicates "t" singleColDupData

def cAssessFail : Assessment :=
  create_assessment_from_results [("duplicates", cDupFail)] "t" "postgres"
    "2025-01-01T00:00:00"

/-- The single recommendation the advisor produces for `cAssessFail`: the
duplicates rule is dead (status `'failure'`), only the pass-rate rule fires. -/
def frameworkRec : Recommendation :=
  { title := "Establish Data Quality Framework",
    description := "Only 0% of checks passed. Consider implementing: 1) Data validation at ingestion, 2) Regular quality monitoring, 3) Data stewardship roles, 4) Quality metrics dashboards.",
    priority := "High" }

theorem recsFailEval :
    generate_recommendations [("duplicates", cDupFail)] = [frameworkRec] := by
  have hst : cDupFail.status = "failure" := by decide
  have hcount : List.countP (fun e => e.2.status == "success" && isCheckPassed e.2)
      [("duplicates", cDupFail)] = 0 := by decide
  have hpct : fmtPercent0 0 = "0%" := by
    have hr : round ((0 : ℚ) * 100 * 10 ^ 0) = (0 : ℤ) := by norm_num
    simp only [fmtPercent0, fmtFixed, hr]
    decide
  simp only [generate_recommendations, hcount]
  simp [hst, hpct, frameworkRec]

def cAssessFailLit : Assessment :=
  { metadata := { dataset_id := "t", connector_type := "postgres",
                  timestamp := "2025-01-01T00:00:00",
                  checks_requested := ["duplicates"], total_checks := 1 },
    check_results := [("duplicates",
      { dataset_id := "t", total_rows := some 5, duplicate_qty := some 2,
        status := "failure" })],
    summary := { passed_checks := 0, failed_checks := 1, error_checks := 0 },
    recommendations := [frameworkRec] }

set_option maxRecDepth 100000 in
theorem cAssessFailEval : cAssessFail = cAssessFailLit := by
  simp only [cAssessFail, create_assessment_from_results, recsFailEval]
  decide

/-- The value of `cDupFail`, written out. -/
def cDupFailLit : CheckResult :=
  { dataset_id := "t", total_rows := some 5, duplicate_qty := some 2,
    status := "failure" }

theorem cDupFailEval : cDupFail = cDupFailLit := by decide

/-- The High recommendation the advisor emits for the >20%-null column
`email`. -/
def highNullRec : Recommendation :=
  { title := "Address High Null Value Columns",
    description := "Columns `email` have >20% null values. Consider: 1) Data source validation, 2) Default value strategies, 3) Imputation techniques, or 4) Column removal if not critical.",
    priority := "High" }

/-- An assessment holding both the failure-status duplicates result and the
null-profile result with stored percentage `33.33`: the shape the pipeline
itself produces on duplicated, partially-null data. -/
def cAssessMix : Assessment :=
  create_assessment_from_results
    [("duplicates", cDupFail), ("null_values", cNullOk)] "t" "postgres"
    "2025-01-01T00:00:00"

set_option maxRecDepth 100000 in
theorem recsMixEval :
    generate_recommendations
      [("duplicates", cDupFailLit), ("null_values", cNullLit)] =
      [highNullRec, frameworkRec] := by
  have h20 : (20 : ℚ) < 3333/100 := by norm_num
  have hnle : ¬((3333 : ℚ)/100 ≤ 20) := by norm_num
  have hpct : fmtPercent0 0 = "0%" := by
    have hr : round ((0 : ℚ) * 100 * 10 ^ 0) = (0 : ℤ) := by norm_num
    simp only [fmtPercent0, fmtFixed, hr]
    decide
  have hcount : List.countP (fun e => (e.2.status == "success") && isCheckPassed e.2)
      [("duplicates", cDupFailLit), ("null_values", cNullLit)] = 0 := by decide
  simp only [generate_recommendations, hcount]
  simp [cDupFailLit, cNullLit, List.lookup, h20, hnle, hpct, highNullRec,
    frameworkRec, List.insertionSort, List.orderedInsert, priorityRankOf]
  decide

/-- The value of `cAssessMix`, written out. -/
def cAssessMixLit : Assessment :=
  { metadata := { dataset_id := "t", connector_type := "postgres",
                  timestamp := "2025-01-01T00:00:00",
                  checks_requested := ["duplicates", "null_values"],
                  total_checks := 2 },
    check_results := [("duplicates", cDupFailLit), ("null_values", cNullLit)],
    summary := { passed_checks := 0, failed_checks := 2, error_checks := 0 },
    recommendations := [highNullRec, frameworkRec] }

set_option maxRecDepth 100000 in
theorem cAssessMixEval : cAssessMix = cAssessMixLit := by
  simp only [cAssessMix, create_assessment_from_results]
  rw [cDupFailEval, cNullEval, recsMixEval]
  simp only [cAssessMixLit, Assessment.mk.injEq]
  refine ⟨by decide, trivial, by decide, trivial⟩

/-- `repr` of the stored two-decimal percentage: JSON serialises `33.33`. -/
theorem jfloatReprEval : jfloatRepr (3333/100) = "33.33" := by
  have h1 : ((3333 : ℚ)/100).den = 100 := by norm_num
  have h2 : (((3333 : ℚ)/100) * 10).den = 10 := by norm_num
  have h3 : round ((3333 : ℚ)/100 * (10 : ℚ) ^ (2 : Nat)) = (3333 : ℤ) := by
    norm_num [round_eq]
  simp only [jfloatRepr, h1, h2]
  rw [if_neg (by decide), if_neg (by decide)]
  simp only [fmtFixed, h3]
  decide

set_option maxRecDepth 1000000 in
set_option maxHeartbeats 2000000 in
/-- The markdown null-profile block of `cNullLit`, written out: the stored
percentage `33.33` is displayed with one decimal as `33.3`. -/
theorem mdNullBodyEval :
    mdNullValuesBody cNullLit =
      "- **Status**: FAIL\n- **Dataset Size**: 3 rows × 1 columns\n- **Columns with Missing Data**: 1 out of 1 columns\n- **Missing Data Coverage**: 100.0% of columns affected\n\n**Detailed Null Analysis:**\n- `email`: 1 nulls (33.3%)\n" := by
  norm_num [mdNullValuesBody, cNullLit, fmtFixed, round_eq]
  decide

/-- The markdown header block of `cAssessMix`, written out. -/
def mdMixL1 : String :=
  "# Data Quality Assessment Report\n\n## Dataset Information\n- **Dataset**: `t`\n- **Connector**: POSTGRES\n- **Assessment Date**: 2025-01-01 00:00:00\n- **Total Checks**: 2\n\n## Executive Summary\n- ✅ **Passed**: 0 checks\n- ❌ **Failed**: 2 checks\n- 🚫 **Errors**: 0 checks\n\n---\n\n## Detailed Check Results\n\n"

/-- The two markdown check sections of `cAssessMix`, written out. -/
def mdMixL2 : String :=
  "### ❌ Duplicates\n\n- **Status**: ERROR\n- **Error**: Unknown error\n\n### ✅ Null Values\n\n- **Status**: FAIL\n- **Dataset Size**: 3 rows × 1 columns\n- **Columns with Missing Data**: 1 out of 1 columns\n- **Missing Data Coverage**: 100.0% of columns affected\n\n**Detailed Null Analysis:**\n- `email`: 1 nulls (33.3%)\n\n"

/-- The markdown recommendations block of `cAssessMix`, written out. -/
def mdMixL3 : String :=
  "---\n\n## Recommendations\n\n1. **Address High Null Value Columns**\n   - Columns `email` have >20% null values. Consider: 1) Data source validation, 2) Default value strategies, 3) Imputation techniques, or 4) Column removal if not critical.\n   - *Priority*: High\n\n2. **Establish Data Quality Framework**\n   - Only 0% of checks passed. Consider implementing: 1) Data validation at ingestion, 2) Regular quality monitoring, 3) Data stewardship roles, 4) Quality metrics dashboards.\n   - *Priority*: High\n\n"

/-- The markdown footer at clock reading `2025-01-01 00:00:01`, written
out. -/
def mdMixL4 : String :=
  "---\n\n## Report Generation\n- **Generated by**: LLM Data Quality Agent\n- **Generation Time**: 2025-01-01 00:00:01\n- **Report Format**: Markdown\n\n*This report was automatically generated. Please review recommendations and take appropriate action.*\n"

set_option maxRecDepth 1000000 in
set_option maxHeartbeats 2000000 in
theorem mdMixL1Eval :
    mdHeader cAssessMixLit.metadata cAssessMixLit.summary = mdMixL1 := by
  decide

set_option maxRecDepth 1000000 in
set_option maxHeartbeats 2000000 in
theorem mdMixL2Eval :
    mdJoin (cAssessMixLit.check_results.map (fun e => mdCheckSection e.1 e.2)) =
      mdMixL2 := by
  simp only [show cAssessMixLit.check_results =
      [("duplicates", cDupFailLit), ("null_values", cNullLit)] from rfl,
    List.map, mdJoin, mdCheckSection, mdNullBodyEval]
  decide

set_option maxRecDepth 1000000 in
set_option maxHeartbeats 2000000 in
theorem mdMixL3Eval :
    mdRecommendations cAssessMixLit.recommendations = mdMixL3 := by
  decide

set_option maxRecDepth 1000000 in
set_option maxHeartbeats 2000000 in
theorem mdMixL4Eval : mdFooter "2025-01-01 00:00:01" = mdMixL4 := by
  decide

/-- The markdown report of `cAssessMix` in four explicit pieces. -/
theorem mdMixEval :
    render_markdown_template cAssessMix "2025-01-01 00:00:01" =
      mdMixL1 ++ mdMixL2 ++ mdMixL3 ++ mdMixL4 := by
  rw [cAssessMixEval]
  show mdHeader cAssessMixLit.metadata cAssessMixLit.summary ++
      mdJoin (cAssessMixLit.check_results.map (fun e => mdCheckSection e.1 e.2)) ++
      mdRecommendations cAssessMixLit.recommendations ++
      mdFooter "2025-01-01 00:00:01" =
      mdMixL1 ++ mdMixL2 ++ mdMixL3 ++ mdMixL4
  rw [mdMixL1Eval, mdMixL2Eval, mdMixL3Eval, mdMixL4Eval]

/-- The stored two-decimal percentage reaches the JSON output serialised as
`33.33`. -/
theorem json_null_pct_mix :
    Contains (generate_json_report cAssessMix "2025-01-01 00:00:01")
      "\"null_percentage\": 33.33" := by
  rw [cAssessMixEval]
  show Contains (ppJson 0 (assessmentToJson cAssessMixLit))
    "\"null_percentage\": 33.33"
  have h0 : "\"" ++ jsonEscape "null_percentage" ++ "\": " ++
      ppJson 10 (JValue.jfloat (3333/100)) = "\"null_percentage\": 33.33" := by
    simp only [ppJson, jfloatReprEval]
    decide
  have hm4 : ("null_percentage", JValue.jfloat (3333/100)) ∈
      [("column_name", JValue.jstr "email"), ("null_count", JValue.jint 1),
       ("null_percentage", JValue.jfloat (3333/100))] :=
    List.mem_cons_of_mem _ (List.mem_cons_of_mem _ (List.mem_cons_self _ _))
  have h1 : Contains (ppJson 8 (JValue.jobj
      [("column_name", JValue.jstr "email"), ("null_count", JValue.jint 1),
       ("null_percentage", JValue.jfloat (3333/100))]))
      "\"null_percentage\": 33.33" :=
    contains_congr_piece (contains_ppJson_obj 8 hm4) h0
  have h2 : Contains (ppJson 6 (JValue.jarr [JValue.jobj
      [("column_name", JValue.jstr "email"), ("null_count", JValue.jint 1),
       ("null_percentage", JValue.jfloat (3333/100))]]))
      "\"null_percentage\": 33.33" :=
    contains_ppJson_arr_single 6 h1
  have hm3 : ("null_analysis", JValue.jarr [JValue.jobj
      [("column_name", JValue.jstr "email"), ("null_count", JValue.jint 1),
       ("null_percentage", JValue.jfloat (3333/100))]]) ∈
      [("dataset_id", JValue.jstr "t"), ("total_rows", JValue.jint 3),
       ("total_columns", JValue.jint 1), ("columns_with_nulls", JValue.jint 1),
       ("null_analysis", JValue.jarr [JValue.jobj
         [("column_name", JValue.jstr "email"), ("null_count", JValue.jint 1),
          ("null_percentage", JValue.jfloat (3333/100))]]),
       ("status", JValue.jstr "success")] :=
    List.mem_cons_of_mem _ (List.mem_cons_of_mem _ (List.mem_cons_of_mem _
      (List.mem_cons_of_mem _ (List.mem_cons_self _ _))))
  have h3 : Contains (ppJson 4 (checkResultToJson cNullLit))
      "\"null_percentage\": 33.33" :=
    contains_trans (contains_ppJson_obj 4 hm3) (contains_append_left _ h2)
  have hm2 : ("null_values", checkResultToJson cNullLit) ∈
      [("duplicates", checkResultToJson cDupFailLit),
       ("null_values", checkResultToJson cNullLit)] :=
    List.mem_cons_of_mem _ (List.mem_cons_self _ _)
  have h4 : Contains (ppJson 2 (JValue.jobj
      [("duplicates", checkResultToJson cDupFailLit),
       ("null_values", checkResultToJson cNullLit)]))
      "\"null_percentage\": 33.33" :=
    contains_trans (contains_ppJson_obj 2 hm2) (contains_append_left _ h3)
  have hm1 : ("check_results", JValue.jobj
      [("duplicates", checkResultToJson cDupFailLit),
       ("null_values", checkResultToJson cNullLit)]) ∈
      [("metadata", JValue.jobj
         [("dataset_id", JValue.jstr "t"),
          ("connector_type", JValue.jstr "postgres"),
          ("timestamp", JValue.jstr "2025-01-01T00:00:00"),
          ("checks_requested", JValue.jarr
            [JValue.jstr "duplicates", JValue.jstr "null_values"]),
          ("total_checks", JValue.jint 2)]),
       ("check_results", JValue.jobj
         [("duplicates", checkResultToJson cDupFailLit),
          ("null_values", checkResultToJson cNullLit)]),
       ("summary", JValue.jobj
         [("passed_checks", JValue.jint 0), ("failed_checks", JValue.jint 2),
          ("error_checks", JValue.jint 0)]),
       ("recommendations", JValue.jarr
         [JValue.jobj
            [("title", JValue.jstr highNullRec.title),
             ("description", JValue.jstr highNullRec.description),
             ("priority", JValue.jstr highNullRec.priority)],
          JValue.jobj
            [("title", JValue.jstr frameworkRec.title),
             ("description", JValue.jstr frameworkRec.description),
             ("priority", JValue.jstr frameworkRec.priority)]])] :=
    List.mem_cons_of_mem _ (List.mem_cons_self _ _)
  exact contains_trans (contains_ppJson_obj 0 hm1) (contains_append_left _ h4)

set_option maxRecDepth 1000000 in
set_option maxHeartbeats 2000000 in
/-- C7 counterexample: (1) for a duplicates result with `status='failure'`
(exactly what the check produces on duplicated data), the HTML report shows
the duplicates figures while the markdown report renders an error block
without them — markdown and HTML do NOT present the same figures regardless
of the status field; and (2) for an assessment that also carries a null
profile with stored percentage `33.33`, the markdown report displays the
percentage as `33.3` while the JSON report serialises it as `33.33`, a
numeral that occurs nowhere in the markdown — the three outputs do NOT
display every `null_percentage` value identically. -/
theorem cross_format_status_counterexample :
    (Contains (render_html_template cAssessFail "2025-01-01 00:00:01")
      "<p><strong>Total Rows:</strong> 5</p>" ∧
    ¬ Contains (render_markdown_template cAssessFail "2025-01-01 00:00:01")
      "**Total Rows**") ∧
    (("duplicates", cDupFailLit) ∈ cAssessMix.check_results ∧
     Contains (render_markdown_template cAssessMix "2025-01-01 00:00:01")
       "- `email`: 1 nulls (33.3%)\n" ∧
     Contains (generate_json_report cAssessMix "2025-01-01 00:00:01")
       "\"null_percentage\": 33.33" ∧
     ¬ Contains (render_markdown_template cAssessMix "2025-01-01 00:00:01")
       "33.33") := by
  refine ⟨⟨?_, ?_⟩, ?_, ?_, ?_, ?_⟩
  · have hdup : cDupFail =
        { dataset_id := "t", total_rows := some 5, duplicate_qty := some 2,
          status := "failure" } := by decide
    have hb : Contains (htmlDuplicatesBody cDupFail)
        "<p><strong>Total Rows:</strong> 5</p>" := by
      rw [hdup]
      simp only [htmlDuplicatesBody, Option.getD_some]
      refine contains_congr_piece
        (contains_mdJoin (List.mem_cons_of_mem _ (List.mem_cons_self _ _))
          (contains_self _)) ?_
      decide
    have hsec := contains_htmlSection_dup (Or.inr (by decide)) hb
    show Contains (htmlHeader cAssessFail.metadata cAssessFail.summary ++
      mdJoin (cAssessFail.check_results.map (fun e => htmlCheckSection e.1 e.2)) ++
      htmlRecommendations cAssessFail.recommendations ++
      htmlFooter "2025-01-01 00:00:01") "<p><strong>Total Rows:</strong> 5</p>"
    exact contains_append_right _ (contains_append_right _ (contains_append_left _
      (contains_mdJoin
        (List.mem_map_of_mem _
          (show ("duplicates", cDupFail) ∈ cAssessFail.check_results by decide))
        hsec)))
  · rw [cAssessFailEval, contains_iff]
    decide
  · rw [cAssessMixEval]
    exact List.mem_cons_self _ _
  · rw [mdMixEval]
    exact contains_append_right _ (contains_append_right _ (contains_append_left _
      (by rw [contains_iff]; decide)))
  · exact json_null_pct_mix
  · rw [mdMixEval]
    refine not_contains_append ?_ ?_
    · rw [String.append_assoc]
      refine not_contains_append ?_ ?_
      · rw [String.append_assoc]
        refine not_contains_append ?_ ?_
        · rw [contains_iff]
          decide
        · rw [contains_iff]
          decide
      · rw [contains_iff]
        decide
    · rw [contains_iff]
      decide

/-- C8 (amended): each renderer is a function of the assessment and the
render-time clock reading only.  The JSON rendering does not depend on the
clock at all; the markdown and HTML renderings are identical whenever the
clock readings agree (they embed the reading as `Generation Time`, distinct
from the assessment's stored timestamp — see the counterexample for
different readings). -/
theorem render_clock_dependence_amended :
    (∀ (a : Assessment) (t1 t2 : String),
        generate_json_report a t1 = generate_json_report a t2) ∧
    (∀ (a : Assessment) (t1 t2 : String), t1 = t2 →
        render_markdown_template a t1 = render_markdown_template a t2 ∧
        render_html_template a t1 = render_html_template a t2) :=
  ⟨fun _ _ _ => rfl, fun a t1 t2 h => by rw [h]; exact ⟨rfl, rfl⟩⟩

/-- Witness for C8 (amended) at a concrete assessment and clock readings. -/
theorem render_clock_dependence_amended_witness :
    generate_json_report cAssessFail "2025-01-01 08:00:00" =
      generate_json_report cAssessFail "2025-01-01 09:00:00" ∧
    (render_markdown_template cAssessFail "2025-01-01 08:00:00" =
      render_markdown_template cAssessFail "2025-01-01 08:00:00" ∧
     render_html_template cAssessFail "2025-01-01 08:00:00" =
      render_html_template cAssessFail "2025-01-01 08:00:00") :=
  ⟨render_clock_dependence_amended.1 cAssessFail "2025-01-01 08:00:00" "2025-01-01 09:00:00",
   render_clock_dependence_amended.2 cAssessFail "2025-01-01 08:00:00" "2025-01-01 08:00:00"
     rfl⟩

set_option maxRecDepth 1000000 in
set_option maxHeartbeats 2000000 in
/-- C8 counterexample: rendering the same assessment at two different clock
readings produces different markdown strings — the output embeds a
`Generation Time` timestamp that is not the assessment's own stored
timestamp. -/
theorem render_gen_time_counterexample :
    render_markdown_template cAssessFail "2025-01-01 08:00:00" ≠
      render_markdown_template cAssessFail "2025-01-01 08:00:01" := by
  rw [cAssessFailEval]
  decide

end DQAgent
